import Mathlib

/-!
Shallow embedding of the travel-ai booking provider orchestration engine:
the Amadeus transport layer (`src/lib/services/amadeus.ts`) and the booking
reconciliation driver (`src/lib/agents/bookingAgent.ts`).

Provider HTTP responses are supplied by an explicit environment (oracle);
the engine's control flow, retry logic, error classification and result
assembly are translated from the source.
-/

namespace TravelAI

/-! ### JavaScript-semantics helpers -/

/-- Truthiness of an optional JS string: `undefined`/`null`/`""` are falsy. -/
def truthyStr : Option String → Bool
  | none => false
  | some s => s ≠ ""

/-- JS `a || b` on optional strings: returns `a` when truthy, else `b`
(which may itself be falsy, e.g. `some ""`). -/
def jsOrStr (a b : Option String) : Option String :=
  if truthyStr a then a else b

/-- Value of a list of decimal digit characters, `none` when the list holds
no leading digit (parseInt NaN). -/
def parseDigits (cs : List Char) : Option Nat :=
  let ds := cs.takeWhile Char.isDigit
  if ds.isEmpty then none
  else some (ds.foldl (fun acc c => acc * 10 + (c.toNat - 48)) 0)

/-- `Number.parseInt(s, 10)`: skip leading whitespace, optional sign, parse
the longest decimal-digit prefix; `none` models NaN. -/
def jsParseInt (s : String) : Option Int :=
  let cs := s.data.dropWhile (fun c => c == ' ' || c == '\t' || c == '\n' || c == '\r')
  match cs with
  | '-' :: rest => (parseDigits rest).map (fun n => -(n : Int))
  | '+' :: rest => (parseDigits rest).map (fun n => (n : Int))
  | _ => (parseDigits cs).map (fun n => (n : Int))

/-- `s.toUpperCase()` (over the ASCII range the engine compares). -/
def strUpper (s : String) : String := ⟨s.data.map Char.toUpper⟩

/-- `s.toLowerCase()` (over the ASCII range the engine compares). -/
def strLower (s : String) : String := ⟨s.data.map Char.toLower⟩

/-- Decimal value of a digit list. -/
def digitsToNat (ds : List Char) : Nat :=
  ds.foldl (fun acc c => acc * 10 + (c.toNat - 48)) 0

def listContainsSub (pat : List Char) : List Char → Bool
  | [] => pat.isEmpty
  | c :: rest => pat.isPrefixOf (c :: rest) || listContainsSub pat rest

/-- `s.includes(pat)`. -/
def strContains (s pat : String) : Bool :=
  listContainsSub pat.data s.data

/-- `s.split(sep)` for a single-character separator. -/
def splitOnCharList (sep : Char) : List Char → List (List Char)
  | [] => [[]]
  | c :: rest =>
      let r := splitOnCharList sep rest
      if c == sep then [] :: r
      else
        match r with
        | [] => [[c]]
        | seg :: segs => (c :: seg) :: segs

/-! ### Error taxonomy (amadeus.ts) -/

/-- `source?: Record<string, unknown>` of a provider error entry; only the
`pointer` field is ever read by the engine. -/
structure ErrSource where
  pointer : Option String
deriving Repr, DecidableEq

/-- `AmadeusErrorEntry`: one provider-reported error object. -/
structure AmadeusErrorEntry where
  code : Option String
  title : Option String
  detail : Option String
  status : Option Int
  source : Option ErrSource
deriving Repr, DecidableEq

inductive AmadeusErrorCategory where
  | auth
  | rate_limit
  | server
  | validation
deriving Repr, DecidableEq

/-- `determineAmadeusCategory(status, code)`. -/
def determineAmadeusCategory (status : Nat) (code : Option String) : AmadeusErrorCategory :=
  if status == 401 || status == 403 then .auth
  else if status == 429 then .rate_limit
  else if status ≥ 500 then .server
  else if code == some "4926" || code == some "4925" then .auth
  else .validation

/-- `AmadeusApiError` (the class's stored data; `category`, `primaryError`,
`message` and `userMessage` are derived accessors below, exactly as the
constructor / getters compute them). -/
structure AmadeusApiError where
  status : Nat
  requestPath : String
  errors : List AmadeusErrorEntry
  rawBody : Option String
  retryAfterSeconds : Option Int
deriving Repr, DecidableEq

def AmadeusApiError.primaryError (e : AmadeusApiError) : Option AmadeusErrorEntry :=
  e.errors.head?

def AmadeusApiError.category (e : AmadeusApiError) : AmadeusErrorCategory :=
  determineAmadeusCategory e.status (e.primaryError.bind (·.code))

/-- `super(primary?.detail || primary?.title || fallbackMessage)`. -/
def AmadeusApiError.message (e : AmadeusApiError) : String :=
  let st := e.status
  let fallbackMessage := s!"Amadeus request failed ({st})"
  (jsOrStr (jsOrStr (e.primaryError.bind (·.detail)) (e.primaryError.bind (·.title)))
    (some fallbackMessage)).getD fallbackMessage

/-- getter `userMessage`. -/
def AmadeusApiError.userMessage (e : AmadeusApiError) : String :=
  let detail := jsOrStr (e.primaryError.bind (·.detail)) (e.primaryError.bind (·.title))
  match e.category with
  | .auth => detail.getD "Unable to authenticate with Amadeus. Please verify API credentials."
  | .rate_limit => detail.getD "Amadeus rate limit reached. We will retry automatically in a moment."
  | .server => detail.getD "Amadeus is currently unavailable. We will retry shortly and email you once confirmed."
  | .validation => detail.getD "Amadeus could not complete the request. Please review traveler details and try again."

inductive TravelPartyContext where
  | flight
  | hotel
deriving Repr, DecidableEq

/-- `AmadeusTravelPartyMismatchError`'s data. -/
structure AmadeusTravelPartyMismatchError where
  context : TravelPartyContext
  supportedCount : Nat
  requestedCount : Nat
deriving Repr, DecidableEq

/-- The message built in the class constructor. -/
def AmadeusTravelPartyMismatchError.message (m : AmadeusTravelPartyMismatchError) : String :=
  let label := match m.context with
    | .flight => "flight offer"
    | .hotel => "hotel offer"
  let supportedLabel := if m.supportedCount == 1 then "traveller" else "travellers"
  let requestedLabel := if m.requestedCount == 1 then "traveller" else "travellers"
  let s := m.supportedCount
  let r := m.requestedCount
  s!"The selected {label} supports up to {s} {supportedLabel}, but {r} {requestedLabel} were provided."

/-! ### Transport layer: `amadeusFetch` (amadeus.ts) -/

def MAX_AMADEUS_RETRY_ATTEMPTS : Nat := 3
def RATE_LIMIT_BASE_DELAY_MS : Nat := 500

/-- The observable parts of one HTTP response: status, the
`retry-after` header, the parsed `errors` array of the JSON body (when the
body parses and holds an array), and the raw body text. -/
structure HttpResponse where
  status : Nat
  retryAfterHeader : Option String
  bodyErrors : Option (List AmadeusErrorEntry)
  rawBody : String
deriving Repr, DecidableEq

/-- `response.ok`: status in [200, 300). -/
def HttpResponse.isOk (r : HttpResponse) : Bool :=
  200 ≤ r.status && r.status < 300

/-- `buildAmadeusError(response, path)`. -/
def buildAmadeusError (r : HttpResponse) (path : String) : AmadeusApiError :=
  { status := r.status
    requestPath := path
    errors := r.bodyErrors.getD []
    rawBody := some r.rawBody
    retryAfterSeconds := r.retryAfterHeader.bind jsParseInt }

instance {ε α : Type} [DecidableEq ε] [DecidableEq α] : DecidableEq (Except ε α) := fun a b =>
  match a, b with
  | .ok x, .ok y =>
      if h : x = y then .isTrue (by rw [h]) else .isFalse (by intro hc; cases hc; exact h rfl)
  | .error x, .error y =>
      if h : x = y then .isTrue (by rw [h]) else .isFalse (by intro hc; cases hc; exact h rfl)
  | .ok _, .error _ => .isFalse (by intro hc; cases hc)
  | .error _, .ok _ => .isFalse (by intro hc; cases hc)

/-- Observable outcome of one `amadeusFetch` call chain: final result,
the backoff delays slept (ms, in order), how many times the token cache
was invalidated, and how many HTTP attempts were made. -/
structure FetchOutcome where
  result : Except AmadeusApiError Unit
  waits : List Int
  tokenInvalidations : Nat
  attemptsUsed : Nat
deriving Repr, DecidableEq

/-- The backoff delay of the 429 branch: `Retry-After` seconds when the
header is truthy and parses to a truthy (nonzero, non-NaN) number, else
`min(500 * 2^(attempt-1), 8000)` ms. -/
def rateLimitBackoffMs (retryAfterHeader : Option String) (attempt : Nat) : Int :=
  let retryAfterSeconds : Option Int :=
    if truthyStr retryAfterHeader then jsParseInt (retryAfterHeader.getD "")
    else none
  -- NaN and 0 are both falsy in the `retryAfterSeconds ? ... : ...` test
  match retryAfterSeconds with
  | some s =>
      if s ≠ 0 then s * 1000
      else ((min (RATE_LIMIT_BASE_DELAY_MS * 2 ^ (attempt - 1)) 8000 : Nat) : Int)
  | none => ((min (RATE_LIMIT_BASE_DELAY_MS * 2 ^ (attempt - 1)) 8000 : Nat) : Int)

/-- `amadeusFetch`, with the recursion depth bounded by a fuel argument.
The real recursion guard is `attempt < MAX_AMADEUS_RETRY_ATTEMPTS`; the
entry point supplies fuel `MAX_AMADEUS_RETRY_ATTEMPTS`, which the guard
keeps from ever being exhausted, so the fuel-0 clause (no retry) is
unreachable from `amadeusFetch`. -/
def amadeusFetchAux (responses : Nat → HttpResponse) (path : String) :
    Nat → Nat → FetchOutcome
  | 0, attempt =>
      let response := responses attempt
      if response.isOk then
        { result := .ok (), waits := [], tokenInvalidations := 0, attemptsUsed := 1 }
      else
        { result := .error (buildAmadeusError response path)
          waits := [], tokenInvalidations := 0, attemptsUsed := 1 }
  | fuel + 1, attempt =>
      let response := responses attempt
      if response.isOk then
        { result := .ok (), waits := [], tokenInvalidations := 0, attemptsUsed := 1 }
      else if response.status = 401 ∧ attempt < MAX_AMADEUS_RETRY_ATTEMPTS then
        -- token cache cleared, then retry
        let rest := amadeusFetchAux responses path fuel (attempt + 1)
        { result := rest.result
          waits := rest.waits
          tokenInvalidations := rest.tokenInvalidations + 1
          attemptsUsed := rest.attemptsUsed + 1 }
      else if response.status = 429 ∧ attempt < MAX_AMADEUS_RETRY_ATTEMPTS then
        let backoffMs := rateLimitBackoffMs response.retryAfterHeader attempt
        let rest := amadeusFetchAux responses path fuel (attempt + 1)
        { result := rest.result
          waits := backoffMs :: rest.waits
          tokenInvalidations := rest.tokenInvalidations
          attemptsUsed := rest.attemptsUsed + 1 }
      else
        { result := .error (buildAmadeusError response path)
          waits := [], tokenInvalidations := 0, attemptsUsed := 1 }

/-- `amadeusFetch({path, method, params, body, attempt})`: responses are an
oracle indexed by attempt number; the success payload is abstracted to
`Unit` (its decoding is outside the retry logic). -/
def amadeusFetch (responses : Nat → HttpResponse) (path : String) (attempt : Nat) :
    FetchOutcome :=
  amadeusFetchAux responses path MAX_AMADEUS_RETRY_ATTEMPTS attempt

/-! ### Booking agent data model (bookingAgent.ts / types) -/

def MAX_FLIGHT_ORDER_ATTEMPTS : Nat := 3
def FLIGHT_ORDER_RETRY_BASE_DELAY_MS : Nat := 800
def MAX_HOTEL_ORDER_ATTEMPTS : Nat := 3
def HOTEL_ORDER_RETRY_BASE_DELAY_MS : Nat := 800

/-- A traveler as seen by the booking agent's control flow: none of the
traveler's fields are read by `bookingAgent.ts` (they are only forwarded to
the service layer, which sits behind the provider oracle), so only the
count of travelers is observable here. -/
abbrev BookingTraveler := Unit

/-- The shape of a (priced or cached) flight-offer JSON value, as far as
`extractTravelerPricingCount` inspects it: an object whose
`travelerPricings` field is an array of some length (`obj (some n)`),
an object without such an array (`obj none`), or a non-object truthy
primitive (`prim`). -/
inductive FlightOfferJson where
  | obj (travelerPricings : Option Nat)
  | prim
deriving Repr, DecidableEq

/-- `extractTravelerPricingCount(pricedOffer)`: `none` models `undefined`
(offer nullish / not an object / no `travelerPricings` array). -/
def extractTravelerPricingCount : Option FlightOfferJson → Option Nat
  | none => none
  | some .prim => none
  | some (.obj tp) => tp

/-- `travelers?.length`, with `0` for a missing list (both are falsy where
the code tests `!travelers?.length`). -/
def travelersLength : Option (List BookingTraveler) → Nat
  | none => 0
  | some l => l.length

/-- `ensureFlightTravelerCapacity(pricedOffer, travelers)`; `.error` models
the thrown `AmadeusTravelPartyMismatchError`. -/
def ensureFlightTravelerCapacity (pricedOffer : FlightOfferJson)
    (travelers : Option (List BookingTraveler)) :
    Except AmadeusTravelPartyMismatchError Unit :=
  if travelersLength travelers == 0 then .ok ()
  else
    match extractTravelerPricingCount (some pricedOffer) with
    | some pricedCount =>
        if travelersLength travelers > pricedCount then
          .error ⟨.flight, max 1 pricedCount, travelersLength travelers⟩
        else .ok ()
    | none => .ok ()

/-- `isTravelerNotPricedError(error)`. -/
def isTravelerNotPricedError (e : AmadeusApiError) : Bool :=
  let primary := e.primaryError
  let detail := strLower ((jsOrStr (primary.bind (·.detail)) (primary.bind (·.title))).getD "")
  if strContains detail "not priced" then true
  else if primary.bind (·.code) == some "4926" then true
  else
    match (primary.bind (·.source)).bind (·.pointer) with
    | some p => strContains p "/data/travelers"
    | none => false

/-- Left-to-right scan for the first position where `pat` occurs followed
by at least one digit and a closing `]`; models the regex
`/travelers\x5b(\d+)\x5d/i` applied to an already lower-cased string. -/
def firstTravelersIndexMatch (pat : List Char) : List Char → Option Nat
  | [] => none
  | c :: rest =>
      if pat.isPrefixOf (c :: rest) then
        let after := (c :: rest).drop pat.length
        let ds := after.takeWhile Char.isDigit
        if !ds.isEmpty && (after.drop ds.length).head? == some ']' then
          some (digitsToNat ds)
        else firstTravelersIndexMatch pat rest
      else firstTravelersIndexMatch pat rest

/-- `pointer.match(/travelers\x5b(\d+)\x5d/i)` followed by
`Number.parseInt` of the captured digits. -/
def matchTravelersIndex (s : String) : Option Nat :=
  firstTravelersIndexMatch "travelers[".data (strLower s).data

/-- `pricedTravelerCountFromError(error)`; `Math.max(0, index)` is the
identity on the parsed (nonnegative) digit value. -/
def pricedTravelerCountFromError (e : AmadeusApiError) : Option Nat :=
  match (e.primaryError.bind (·.source)).bind (·.pointer) with
  | none => none
  | some pointer => matchTravelersIndex pointer

/-- `isInvalidHotelGuestError(error)`. -/
def isInvalidHotelGuestError (e : AmadeusApiError) : Bool :=
  match e.primaryError with
  | none => false
  | some primary =>
      if primary.code == some "21503" then true
      else
        let detail := strLower ((jsOrStr primary.detail primary.title).getD "")
        strContains detail "invalid number of guests"

/-- The shape of a hotel-offer JSON value as far as
`inferHotelGuestCapacityFromOffer` inspects it: `guests?.adults` when a
number, `room?.typeEstimated?.beds` when a number, and the nested
`offers` array when present. `prim` is any non-object. -/
inductive HotelOfferJson where
  | prim
  | obj (adults : Option Int) (beds : Option Int) (offers : Option (List HotelOfferJson))
deriving Repr

mutual

/-- `inferHotelGuestCapacityFromOffer(offer)`. -/
def inferHotelGuestCapacityFromOffer : HotelOfferJson → Option Int
  | .prim => none
  | .obj adults beds offers =>
      match adults with
      | some a =>
          if a > 0 then some a
          else
            match beds with
            | some b =>
                if b > 0 then some b
                else
                  match offers with
                  | some nested => inferHotelNestedCapacity nested
                  | none => none
            | none =>
                match offers with
                | some nested => inferHotelNestedCapacity nested
                | none => none
      | none =>
          match beds with
          | some b =>
              if b > 0 then some b
              else
                match offers with
                | some nested => inferHotelNestedCapacity nested
                | none => none
          | none =>
              match offers with
              | some nested => inferHotelNestedCapacity nested
              | none => none

/-- The `for (const nested of maybeOffer.offers)` loop: first nested offer
whose inferred capacity is a positive number. -/
def inferHotelNestedCapacity : List HotelOfferJson → Option Int
  | [] => none
  | o :: rest =>
      match inferHotelGuestCapacityFromOffer o with
      | some c => if c > 0 then some c else inferHotelNestedCapacity rest
      | none => inferHotelNestedCapacity rest

end

/-! ### Provider response shapes (the fields the agent reads) -/

/-- `AmadeusFlightPricingResponse.data`. -/
structure PricingData where
  flightOffers : Option (List FlightOfferJson)
deriving Repr, DecidableEq

structure PricingResponse where
  data : Option PricingData
deriving Repr, DecidableEq

/-- `AmadeusFlightOrderResponse.data`. -/
structure OrderData where
  id : Option String
deriving Repr, DecidableEq

structure OrderResponse where
  data : Option OrderData
deriving Repr, DecidableEq

/-- `AmadeusHotelBookingResponse.data`. -/
structure HotelBookingData where
  id : Option String
  providerConfirmationId : Option String
deriving Repr, DecidableEq

structure HotelBookingResponse where
  data : Option HotelBookingData
deriving Repr, DecidableEq

/-- What the service layer (`priceAmadeusFlightOffer`,
`createAmadeusFlightOrder`, `bookAmadeusHotelOffer`) can throw:
an `AmadeusApiError` from the transport, or a plain `Error`
(token/credential failures, malformed responses). -/
inductive ServiceError where
  | api (e : AmadeusApiError)
  | generic (msg : String)
deriving Repr, DecidableEq

/-- Errors that flow through the agent's catch blocks. -/
inductive AgentError where
  | api (e : AmadeusApiError)
  | mismatch (m : AmadeusTravelPartyMismatchError)
  | generic (msg : String)
deriving Repr, DecidableEq

def liftServiceError : ServiceError → AgentError
  | .api e => .api e
  | .generic msg => .generic msg

/-- `attemptError instanceof AmadeusApiError && attemptError.category === "server"`. -/
def AgentError.isServerApi : AgentError → Bool
  | .api a => a.category == .server
  | _ => false

/-- Same test on a service-layer error. -/
def ServiceError.isServerApi : ServiceError → Bool
  | .api a => a.category == .server
  | _ => false

/-- `extractAmadeusMessage(error, fallback)`. The `fallback` argument is
only returned for non-`Error` values, which cannot arise here. -/
def extractAmadeusMessage (error : AgentError) (fallback : String) : String :=
  match error with
  | .api e =>
      match e.primaryError with
      | some primary =>
          let normalizedTitle := strUpper (primary.title.getD "")
          if primary.code == some "34651" || normalizedTitle == "SEGMENT SELL FAILURE" then
            "The airline could not confirm seats on one of the selected segments. Please refresh the search to pick a new itinerary."
          else e.userMessage
      | none => e.userMessage
  | .mismatch m => m.message
  | .generic msg =>
      let _ := fallback
      msg

/-! ### Provider oracle and call trace -/

inductive PricingStrategy where
  | default
  | compatibility
deriving Repr, DecidableEq

inductive ProviderCall where
  | price (strategy : PricingStrategy)
  | createOrder
  | bookHotel
deriving Repr, DecidableEq

/-- The provider environment: what the nth pricing / order-creation /
hotel-booking call resolves or rejects with. -/
structure ProviderEnv where
  priceResult : Nat → PricingStrategy → Except ServiceError (Option PricingResponse)
  orderResult : Nat → Except ServiceError (Option OrderResponse)
  hotelResult : Nat → Except ServiceError (Option HotelBookingResponse)

/-- Mutable observables threaded through one reconciliation: per-kind call
counters (indices into the oracle), the ordered provider-call trace, and
the backoff delays slept by the agent (ms). -/
structure AgentState where
  priceCalls : Nat
  orderCalls : Nat
  hotelCalls : Nat
  calls : List ProviderCall
  waits : List Nat
deriving Repr, DecidableEq

def AgentState.initial : AgentState :=
  { priceCalls := 0, orderCalls := 0, hotelCalls := 0, calls := [], waits := [] }

def callPrice (env : ProviderEnv) (strategy : PricingStrategy) (st : AgentState) :
    Except ServiceError (Option PricingResponse) × AgentState :=
  (env.priceResult st.priceCalls strategy,
   { st with priceCalls := st.priceCalls + 1, calls := st.calls ++ [.price strategy] })

def callOrder (env : ProviderEnv) (st : AgentState) :
    Except ServiceError (Option OrderResponse) × AgentState :=
  (env.orderResult st.orderCalls,
   { st with orderCalls := st.orderCalls + 1, calls := st.calls ++ [.createOrder] })

def callHotel (env : ProviderEnv) (st : AgentState) :
    Except ServiceError (Option HotelBookingResponse) × AgentState :=
  (env.hotelResult st.hotelCalls,
   { st with hotelCalls := st.hotelCalls + 1, calls := st.calls ++ [.bookHotel] })

/-! ### Payload and result -/

/-- `payload.amadeusHotelOffer`. -/
structure AmadeusHotelOfferRef where
  offerId : String
  hotelId : Option String
  raw : Option HotelOfferJson

/-- `BookingConfirmationPayload`, restricted to the fields the booking
agent's control flow reads (the remaining fields — headline, charged
amount, customer contact, flight/stay summaries — are copied verbatim
into the response and never branched on). -/
structure BookingConfirmationPayload where
  itineraryId : String
  travelers : Option (List BookingTraveler)
  amadeusFlightOffer : Option FlightOfferJson
  amadeusHotelOffer : Option AmadeusHotelOfferRef
  paymentIntentId : Option String

inductive BookingStatus where
  | confirmed
  | pending
deriving Repr, DecidableEq

/-- `BookingResponse`, restricted to the computed fields (the echoed
payload fields are verbatim copies). -/
structure BookingResponse where
  confirmationNumber : String
  status : BookingStatus
  itineraryId : String
  paymentIntentId : Option String
  amadeusFlightOrderId : Option String
  amadeusHotelReservationId : Option String
  amadeusFlightOrder : Option OrderResponse
  amadeusHotelBooking : Option HotelBookingResponse
  amadeusFlightOrderError : Option String
  amadeusHotelBookingError : Option String
deriving Repr, DecidableEq

/-! ### Flight leg (bookingAgent.ts lines 37-198) -/

/-- One pass of the `try` body of `attemptFlightBooking`: price the cached
offer, check the priced offer exists, check traveler capacity, create the
order. -/
def flightAttemptOnce (env : ProviderEnv) (payload : BookingConfirmationPayload)
    (strategy : PricingStrategy) (st : AgentState) :
    Except AgentError (Option OrderResponse) × AgentState :=
  let r := callPrice env strategy st
  let st := r.2
  match r.1 with
  | .error e => (.error (liftServiceError e), st)
  | .ok pricing =>
      let pricedOffer := ((pricing.bind (·.data)).bind (·.flightOffers)).bind List.head?
      match pricedOffer with
      | none => (.error (.generic "Amadeus pricing response missing flight offer"), st)
      | some offer =>
          match ensureFlightTravelerCapacity offer payload.travelers with
          | .error m => (.error (.mismatch m), st)
          | .ok _ =>
              let r2 := callOrder env r.2
              match r2.1 with
              | .error e => (.error (liftServiceError e), r2.2)
              | .ok order => (.ok order, r2.2)

/-- `attemptFlightBooking(strategy, attempt)` with its `server`-category
retry loop (delay `800 * 2^(attempt-1)` ms, at most
`MAX_FLIGHT_ORDER_ATTEMPTS` total attempts), recursion bounded by fuel.
The guard `attempt < MAX_FLIGHT_ORDER_ATTEMPTS` keeps the fuel supplied by
`attemptFlightBooking` from ever being exhausted, so the fuel-0 clause
(no retry) is unreachable from the entry point. -/
def attemptFlightBookingAux (env : ProviderEnv) (payload : BookingConfirmationPayload)
    (strategy : PricingStrategy) :
    Nat → Nat → AgentState → Except AgentError (Option OrderResponse) × AgentState
  | 0, _, st => flightAttemptOnce env payload strategy st
  | fuel + 1, attempt, st =>
      let r := flightAttemptOnce env payload strategy st
      match r.1 with
      | .error e =>
          if e.isServerApi ∧ attempt < MAX_FLIGHT_ORDER_ATTEMPTS then
            let delayMs := FLIGHT_ORDER_RETRY_BASE_DELAY_MS * 2 ^ (attempt - 1)
            attemptFlightBookingAux env payload strategy fuel (attempt + 1)
              { r.2 with waits := r.2.waits ++ [delayMs] }
          else (.error e, r.2)
      | .ok order => (.ok order, r.2)

def attemptFlightBooking (env : ProviderEnv) (payload : BookingConfirmationPayload)
    (strategy : PricingStrategy) (attempt : Nat) (st : AgentState) :
    Except AgentError (Option OrderResponse) × AgentState :=
  attemptFlightBookingAux env payload strategy MAX_FLIGHT_ORDER_ATTEMPTS attempt st

/-- `order?.data?.id` filtered by JS truthiness (an empty-string id fails
the `!order?.data?.id` guard). -/
def orderIdTruthy (o : Option OrderResponse) : Option String :=
  match (o.bind (·.data)).bind (·.id) with
  | some s => if s ≠ "" then some s else none
  | none => none

/-- Result of the flight-leg `try`/`catch` (lines 83-197): ids and payload
on success, the recorded error message, whether `status` was set to
`"pending"`, and the value of `amadeusAvailable` after the leg. -/
structure FlightLegOutcome where
  flightOrderId : Option String
  flightOrder : Option OrderResponse
  orderError : Option String
  pending : Bool
  availAfter : Bool
deriving Repr, DecidableEq

/-- The segment-sell test of the flight `catch` (lines 136-144):
`primaryCode === "34651" || numericCode === 34651 ||
 error.primaryError?.title === "SEGMENT SELL FAILURE"`, where
`numericCode` is `Number.parseInt(primaryCode, 10)` when `primaryCode` is
a truthy string. -/
def isSegmentSellFailure (e : AmadeusApiError) : Bool :=
  let primaryCode := e.primaryError.bind (·.code)
  let numericCode : Option Int :=
    match primaryCode with
    | some c => if c ≠ "" then jsParseInt c else none
    | none => none
  primaryCode == some "34651" || numericCode == some 34651 ||
    e.primaryError.bind (·.title) == some "SEGMENT SELL FAILURE"

/-- The `if (!handled) { ... }` tail of the flight `catch`: record the
message, set `status` to pending, and disable Amadeus on `auth`/`server`
categories. -/
def flightUnhandledFailure (failure : AgentError) (st : AgentState) :
    FlightLegOutcome × AgentState :=
  let message := extractAmadeusMessage failure "Amadeus flight booking failed"
  let disable :=
    match failure with
    | .api a => a.category == .auth || a.category == .server
    | _ => false
  ({ flightOrderId := none, flightOrder := none, orderError := some message,
     pending := true, availAfter := !disable }, st)

/-- The flight-leg `catch (error)` block (lines 92-197). -/
def handleFlightCatch (env : ProviderEnv) (payload : BookingConfirmationPayload)
    (error : AgentError) (st : AgentState) : FlightLegOutcome × AgentState :=
  match error with
  | .mismatch m =>
      ({ flightOrderId := none, flightOrder := none, orderError := some m.message,
         pending := true, availAfter := false }, st)
  | .api e =>
      if isTravelerNotPricedError e then
        let requestedCount := max 1 (travelersLength payload.travelers)
        let supportedCount := max 1
          ((pricedTravelerCountFromError e).getD
            ((extractTravelerPricingCount payload.amadeusFlightOffer).getD
              (requestedCount - 1)))
        let m : AmadeusTravelPartyMismatchError := ⟨.flight, supportedCount, requestedCount⟩
        ({ flightOrderId := none, flightOrder := none, orderError := some m.message,
           pending := true, availAfter := false }, st)
      else
        if isSegmentSellFailure e then
          let r := attemptFlightBooking env payload .compatibility 1 st
          match r.1 with
          | .ok fallbackOrder =>
              match orderIdTruthy fallbackOrder with
              | some id =>
                  ({ flightOrderId := some id, flightOrder := fallbackOrder,
                     orderError := none, pending := false, availAfter := true }, r.2)
              | none =>
                  flightUnhandledFailure
                    (.generic "Amadeus flight order creation failed") r.2
          | .error fallbackError => flightUnhandledFailure fallbackError r.2
        else flightUnhandledFailure (.api e) st
  | .generic msg => flightUnhandledFailure (.generic msg) st

/-- The whole flight leg: `attemptFlightBooking()` plus the outer
`try`/`catch` (entered only when Amadeus is available and a cached flight
offer is present). -/
def runFlightLeg (env : ProviderEnv) (payload : BookingConfirmationPayload)
    (st : AgentState) : FlightLegOutcome × AgentState :=
  let r := attemptFlightBooking env payload .default 1 st
  match r.1 with
  | .ok order =>
      match orderIdTruthy order with
      | some id =>
          ({ flightOrderId := some id, flightOrder := order, orderError := none,
             pending := false, availAfter := true }, r.2)
      | none =>
          handleFlightCatch env payload
            (.generic "Amadeus flight order creation failed") r.2
  | .error e => handleFlightCatch env payload e r.2

/-! ### Hotel leg (bookingAgent.ts lines 200-304) -/

/-- `attemptHotelBooking(attempt)` with its `server`-category retry loop,
recursion bounded by fuel exactly as in `attemptFlightBookingAux`. -/
def attemptHotelBookingAux (env : ProviderEnv) :
    Nat → Nat → AgentState → Except AgentError (Option HotelBookingResponse) × AgentState
  | 0, _, st =>
      let r := callHotel env st
      match r.1 with
      | .error e => (.error (liftServiceError e), r.2)
      | .ok booking => (.ok booking, r.2)
  | fuel + 1, attempt, st =>
      let r := callHotel env st
      match r.1 with
      | .error e =>
          if e.isServerApi ∧ attempt < MAX_HOTEL_ORDER_ATTEMPTS then
            let delayMs := HOTEL_ORDER_RETRY_BASE_DELAY_MS * 2 ^ (attempt - 1)
            attemptHotelBookingAux env fuel (attempt + 1)
              { r.2 with waits := r.2.waits ++ [delayMs] }
          else (.error (liftServiceError e), r.2)
      | .ok booking => (.ok booking, r.2)

def attemptHotelBooking (env : ProviderEnv) (attempt : Nat) (st : AgentState) :
    Except AgentError (Option HotelBookingResponse) × AgentState :=
  attemptHotelBookingAux env MAX_HOTEL_ORDER_ATTEMPTS attempt st

/-- `booking?.data?.id` filtered by JS truthiness. -/
def hotelIdTruthy (b : Option HotelBookingResponse) : Option String :=
  match (b.bind (·.data)).bind (·.id) with
  | some s => if s ≠ "" then some s else none
  | none => none

/-- Result of the hotel-leg `try`/`catch`. -/
structure HotelLegOutcome where
  hotelReservationId : Option String
  hotelBooking : Option HotelBookingResponse
  bookingError : Option String
  pending : Bool
  availAfter : Bool
deriving Repr, DecidableEq

/-- The final `else` of the hotel `catch`: record the message, set pending,
disable Amadeus on `auth`/`server` categories. -/
def hotelUnhandledFailure (error : AgentError) (st : AgentState) :
    HotelLegOutcome × AgentState :=
  let message := extractAmadeusMessage error "Amadeus hotel booking failed"
  let disable :=
    match error with
    | .api a => a.category == .auth || a.category == .server
    | _ => false
  ({ hotelReservationId := none, hotelBooking := none, bookingError := some message,
     pending := true, availAfter := !disable }, st)

/-- The hotel-leg `catch (error)` block (lines 242-303). -/
def handleHotelCatch (payload : BookingConfirmationPayload) (error : AgentError)
    (st : AgentState) : HotelLegOutcome × AgentState :=
  match error with
  | .mismatch m =>
      ({ hotelReservationId := none, hotelBooking := none,
         bookingError := some m.message, pending := true, availAfter := false }, st)
  | .api e =>
      if isInvalidHotelGuestError e then
        let requestedCount := max 1 (travelersLength payload.travelers)
        -- `inferHotelGuestCapacityFromOffer` only ever returns positive
        -- numbers, so `Int.toNat` is faithful here
        let supportedCount := max 1
          (match (payload.amadeusHotelOffer.bind (·.raw)).bind
                   inferHotelGuestCapacityFromOffer with
           | some c => c.toNat
           | none => requestedCount - 1)
        let m : AmadeusTravelPartyMismatchError := ⟨.hotel, supportedCount, requestedCount⟩
        ({ hotelReservationId := none, hotelBooking := none,
           bookingError := some m.message, pending := true, availAfter := false }, st)
      else hotelUnhandledFailure (.api e) st
  | .generic msg => hotelUnhandledFailure (.generic msg) st

/-- The whole hotel leg (entered only when Amadeus is still available and a
cached hotel offer id is present). -/
def runHotelLeg (env : ProviderEnv) (payload : BookingConfirmationPayload)
    (st : AgentState) : HotelLegOutcome × AgentState :=
  let r := attemptHotelBooking env 1 st
  match r.1 with
  | .ok booking =>
      match hotelIdTruthy booking with
      | some id =>
          -- `providerConfirmationId ?? id` (nullish coalescing)
          let resId := ((booking.bind (·.data)).bind (·.providerConfirmationId)).getD id
          ({ hotelReservationId := some resId, hotelBooking := booking,
             bookingError := none, pending := false, availAfter := true }, r.2)
      | none => handleHotelCatch payload (.generic "Amadeus hotel booking failed") r.2
  | .error e => handleHotelCatch payload e r.2

/-! ### Reconciliation driver: `bookingAgentConfirm` -/

/-- `Boolean(AMADEUS_CLIENT_ID && AMADEUS_CLIENT_SECRET)` —
`isAmadeusConfigured()` with the two environment variables made explicit
(absent or empty strings are falsy). -/
def isAmadeusConfigured (clientId clientSecret : Option String) : Bool :=
  truthyStr clientId && truthyStr clientSecret

/-- The generated confirmation number; `randToken` stands for the
`Math.random().toString(36).slice(2, 6)` token. -/
def confirmationNumberFor (itineraryId randToken : String) : String :=
  let segments := (splitOnCharList '-' itineraryId.data).map (fun cs => String.mk cs)
  let suffix := ((segments.getLast?).map strUpper).getD "ITIN"
  let tok := strUpper randToken
  s!"CONF-{suffix}-{tok}"

/-- JS truthiness of `payload.amadeusHotelOffer?.offerId`. -/
def hotelOfferIdTruthy (p : BookingConfirmationPayload) : Bool :=
  match p.amadeusHotelOffer with
  | some h => h.offerId ≠ ""
  | none => false

def skippedFlightLeg : FlightLegOutcome :=
  { flightOrderId := none, flightOrder := none, orderError := none,
    pending := false, availAfter := true }

def skippedHotelLeg : HotelLegOutcome :=
  { hotelReservationId := none, hotelBooking := none, bookingError := none,
    pending := false, availAfter := true }

/-- `bookingAgentConfirm(payload)`. `configured` is `isAmadeusConfigured()`;
`randToken` feeds the confirmation-number generator; the `.error` result
models the thrown `Error` for a missing traveler list. The `status`
variable starts `"confirmed"`, is set to `"pending"` in the legs' failure
branches and never reset, which the `pending` flags reproduce. -/
def bookingAgentConfirm (configured : Bool) (env : ProviderEnv)
    (payload : BookingConfirmationPayload) (randToken : String) :
    Except String BookingResponse × AgentState :=
  let st0 := AgentState.initial
  if travelersLength payload.travelers == 0 then
    (.error "Traveller details are required to finalize booking.", st0)
  else
    let amadeusEnabled := configured
    let flightRan := amadeusEnabled && payload.amadeusFlightOffer.isSome
    let fr :=
      if flightRan then runFlightLeg env payload st0 else (skippedFlightLeg, st0)
    let amadeusAvailable := if flightRan then fr.1.availAfter else amadeusEnabled
    let hotelRan := amadeusAvailable && hotelOfferIdTruthy payload
    let hr :=
      if hotelRan then runHotelLeg env payload fr.2 else (skippedHotelLeg, fr.2)
    let status : BookingStatus :=
      if fr.1.pending || hr.1.pending then .pending else .confirmed
    (.ok
      { confirmationNumber := confirmationNumberFor payload.itineraryId randToken
        status := status
        itineraryId := payload.itineraryId
        paymentIntentId := payload.paymentIntentId
        amadeusFlightOrderId := fr.1.flightOrderId
        amadeusHotelReservationId := hr.1.hotelReservationId
        amadeusFlightOrder := fr.1.flightOrder
        amadeusHotelBooking := hr.1.hotelBooking
        amadeusFlightOrderError := fr.1.orderError
        amadeusHotelBookingError := hr.1.bookingError },
     hr.2)

/-! ### Concrete environments and payloads for witnesses and counterexamples -/

/-- A provider oracle where every call succeeds. -/
def envHappy : ProviderEnv :=
  { priceResult := fun _ _ => .ok (some ⟨some ⟨some [.obj (some 2)]⟩⟩)
    orderResult := fun _ => .ok (some ⟨some ⟨some "ORD1"⟩⟩)
    hotelResult := fun _ => .ok (some ⟨some ⟨some "HB1", some "CONF9"⟩⟩) }

def payloadHappy : BookingConfirmationPayload :=
  { itineraryId := "itin-abc-xyz"
    travelers := some [(), ()]
    amadeusFlightOffer := some (.obj (some 2))
    amadeusHotelOffer := some ⟨"HO1", none, none⟩
    paymentIntentId := none }

/-- The response `bookingAgentConfirm` produces on `envHappy`/`payloadHappy`. -/
def rHappy : BookingResponse :=
  { confirmationNumber := "CONF-XYZ-AB12"
    status := .confirmed
    itineraryId := "itin-abc-xyz"
    paymentIntentId := none
    amadeusFlightOrderId := some "ORD1"
    amadeusHotelReservationId := some "CONF9"
    amadeusFlightOrder := some ⟨some ⟨some "ORD1"⟩⟩
    amadeusHotelBooking := some ⟨some ⟨some "HB1", some "CONF9"⟩⟩
    amadeusFlightOrderError := none
    amadeusHotelBookingError := none }

/-- A 401 response (rejected token). -/
def resp401 : HttpResponse := ⟨401, none, some [], "auth-failed"⟩

/-- A 200 response. -/
def respOk200 : HttpResponse := ⟨200, none, none, ""⟩

/-- A 429 response carrying `Retry-After: 0`. -/
def resp429hdr0 : HttpResponse := ⟨429, some "0", some [], ""⟩

/-- A 500 provider error whose primary code is the segment-sell-failure
code: category `server` *and* `isSegmentSellFailure`. -/
def errServerSell : AmadeusApiError :=
  { status := 500
    requestPath := "/v2/shopping/flight-offers/pricing"
    errors := [{ code := some "34651", title := some "SEGMENT SELL FAILURE",
                 detail := none, status := none, source := none }]
    rawBody := none
    retryAfterSeconds := none }

/-- An oracle whose pricing calls always reject with `errServerSell`. -/
def envServerSell : ProviderEnv :=
  { priceResult := fun _ _ => .error (.api errServerSell)
    orderResult := fun _ => .ok none
    hotelResult := fun _ => .ok none }

def payloadFlightOnly : BookingConfirmationPayload :=
  { itineraryId := "it-1"
    travelers := some [()]
    amadeusFlightOffer := some (.obj none)
    amadeusHotelOffer := none
    paymentIntentId := none }

def payloadNoTravelers : BookingConfirmationPayload :=
  { itineraryId := "itin-1"
    travelers := none
    amadeusFlightOffer := some (.obj (some 2))
    amadeusHotelOffer := some ⟨"HO1", none, none⟩
    paymentIntentId := some "pi_1" }

/-! ## Theorems -/

theorem attemptFlightBookingAux_succ (env : ProviderEnv)
    (payload : BookingConfirmationPayload) (strategy : PricingStrategy)
    (fuel attempt : Nat) (st : AgentState) :
    attemptFlightBookingAux env payload strategy (fuel + 1) attempt st =
      (let r := flightAttemptOnce env payload strategy st
       match r.1 with
       | .error e =>
           if e.isServerApi ∧ attempt < MAX_FLIGHT_ORDER_ATTEMPTS then
             attemptFlightBookingAux env payload strategy fuel (attempt + 1)
               { r.2 with waits :=
                   r.2.waits ++ [FLIGHT_ORDER_RETRY_BASE_DELAY_MS * 2 ^ (attempt - 1)] }
           else (.error e, r.2)
       | .ok order => (.ok order, r.2)) := rfl

theorem attemptHotelBookingAux_succ (env : ProviderEnv)
    (fuel attempt : Nat) (st : AgentState) :
    attemptHotelBookingAux env (fuel + 1) attempt st =
      (let r := callHotel env st
       match r.1 with
       | .error e =>
           if e.isServerApi ∧ attempt < MAX_HOTEL_ORDER_ATTEMPTS then
             attemptHotelBookingAux env fuel (attempt + 1)
               { r.2 with waits :=
                   r.2.waits ++ [HOTEL_ORDER_RETRY_BASE_DELAY_MS * 2 ^ (attempt - 1)] }
           else (.error (liftServiceError e), r.2)
       | .ok booking => (.ok booking, r.2)) := rfl

theorem amadeusFetchAux_succ (responses : Nat → HttpResponse) (path : String)
    (fuel attempt : Nat) :
    amadeusFetchAux responses path (fuel + 1) attempt =
      (let response := responses attempt
       if response.isOk then
         { result := .ok (), waits := [], tokenInvalidations := 0, attemptsUsed := 1 }
       else if response.status = 401 ∧ attempt < MAX_AMADEUS_RETRY_ATTEMPTS then
         let rest := amadeusFetchAux responses path fuel (attempt + 1)
         { result := rest.result
           waits := rest.waits
           tokenInvalidations := rest.tokenInvalidations + 1
           attemptsUsed := rest.attemptsUsed + 1 }
       else if response.status = 429 ∧ attempt < MAX_AMADEUS_RETRY_ATTEMPTS then
         let backoffMs := rateLimitBackoffMs response.retryAfterHeader attempt
         let rest := amadeusFetchAux responses path fuel (attempt + 1)
         { result := rest.result
           waits := backoffMs :: rest.waits
           tokenInvalidations := rest.tokenInvalidations
           attemptsUsed := rest.attemptsUsed + 1 }
       else
         { result := .error (buildAmadeusError response path)
           waits := [], tokenInvalidations := 0, attemptsUsed := 1 }) := rfl

theorem flightUnhandled_coherent (f : AgentError) (st : AgentState) :
    ((flightUnhandledFailure f st).1).pending =
      ((flightUnhandledFailure f st).1).orderError.isSome := by
  simp [flightUnhandledFailure]

theorem handleFlightCatch_coherent (env : ProviderEnv)
    (payload : BookingConfirmationPayload) (e : AgentError) (st : AgentState) :
    ((handleFlightCatch env payload e st).1).pending =
      ((handleFlightCatch env payload e st).1).orderError.isSome := by
  cases e with
  | mismatch m => simp [handleFlightCatch]
  | generic msg => simp [handleFlightCatch, flightUnhandledFailure]
  | api a =>
      by_cases h1 : isTravelerNotPricedError a
      · simp [handleFlightCatch, h1]
      · by_cases h2 : isSegmentSellFailure a
        · simp only [handleFlightCatch, h1, h2, Bool.false_eq_true, if_false, if_true]
          split
          · split
            · simp
            · exact flightUnhandled_coherent _ _
          · exact flightUnhandled_coherent _ _
        · simp only [handleFlightCatch, h1, h2, Bool.false_eq_true, if_false]
          exact flightUnhandled_coherent _ _

theorem runFlightLeg_coherent (env : ProviderEnv)
    (payload : BookingConfirmationPayload) (st : AgentState) :
    ((runFlightLeg env payload st).1).pending =
      ((runFlightLeg env payload st).1).orderError.isSome := by
  simp only [runFlightLeg]
  split
  · split
    · simp
    · exact handleFlightCatch_coherent _ _ _ _
  · exact handleFlightCatch_coherent _ _ _ _

theorem hotelUnhandled_coherent (e : AgentError) (st : AgentState) :
    ((hotelUnhandledFailure e st).1).pending =
      ((hotelUnhandledFailure e st).1).bookingError.isSome := by
  simp [hotelUnhandledFailure]

theorem handleHotelCatch_coherent (payload : BookingConfirmationPayload)
    (e : AgentError) (st : AgentState) :
    ((handleHotelCatch payload e st).1).pending =
      ((handleHotelCatch payload e st).1).bookingError.isSome := by
  cases e with
  | mismatch m => simp [handleHotelCatch]
  | generic msg => simp [handleHotelCatch, hotelUnhandledFailure]
  | api a =>
      by_cases h1 : isInvalidHotelGuestError a
      · simp [handleHotelCatch, h1]
      · simp only [handleHotelCatch, h1, Bool.false_eq_true, if_false]
        exact hotelUnhandled_coherent _ _

theorem runHotelLeg_coherent (env : ProviderEnv)
    (payload : BookingConfirmationPayload) (st : AgentState) :
    ((runHotelLeg env payload st).1).pending =
      ((runHotelLeg env payload st).1).bookingError.isSome := by
  simp only [runHotelLeg]
  split
  · split
    · simp
    · exact handleHotelCatch_coherent _ _ _
  · exact handleHotelCatch_coherent _ _ _

theorem status_iff_aux (fo : FlightLegOutcome) (ho : HotelLegOutcome)
    (hf : fo.pending = fo.orderError.isSome)
    (hh : ho.pending = ho.bookingError.isSome) :
    ((if fo.pending || ho.pending then BookingStatus.pending else .confirmed) = .confirmed
      ↔ fo.orderError = none ∧ ho.bookingError = none) := by
  by_cases h1 : fo.pending = true
  · have hne : fo.orderError ≠ none := by
      intro hn
      rw [hn] at hf
      rw [h1] at hf
      simp at hf
    simp [h1, hne]
  · by_cases h2 : ho.pending = true
    · have hne : ho.bookingError ≠ none := by
        intro hn
        rw [hn] at hh
        rw [h2] at hh
        simp at hh
      simp [h1, h2, hne]
    · have hb1 : fo.pending = false := by revert h1; cases fo.pending <;> simp
      have hb2 : ho.pending = false := by revert h2; cases ho.pending <;> simp
      have he1 : fo.orderError = none := by
        rw [hb1] at hf
        cases hoe : fo.orderError with
        | none => rfl
        | some v => rw [hoe] at hf; simp at hf
      have he2 : ho.bookingError = none := by
        rw [hb2] at hh
        cases hoe : ho.bookingError with
        | none => rfl
        | some v => rw [hoe] at hh; simp at hh
      simp [hb1, hb2, he1, he2]

/-- C1: for every booking request, the returned `BookingResult` status is
`"confirmed"` if and only if no attempted leg failed: `bookingAgentConfirm`
initializes `status` to `"confirmed"`, downgrades it to `"pending"` in
exactly the branches that record a leg error, never resets it, and skipped
legs leave it `"confirmed"` — so the status is `"confirmed"` iff neither
leg error is populated. -/
theorem C1_status_confirmed_iff_no_leg_failed
    (configured : Bool) (env : ProviderEnv) (payload : BookingConfirmationPayload)
    (randToken : String) (r : BookingResponse)
    (h : (bookingAgentConfirm configured env payload randToken).1 = .ok r) :
    (r.status = .confirmed ↔
      r.amadeusFlightOrderError = none ∧ r.amadeusHotelBookingError = none) := by
  unfold bookingAgentConfirm at h
  by_cases hg : (travelersLength payload.travelers == 0) = true
  · rw [if_pos hg] at h
    simp at h
  · rw [if_neg hg] at h
    simp only [Except.ok.injEq] at h
    subst h
    refine status_iff_aux _ _ ?_ ?_
    · split
      · exact runFlightLeg_coherent _ _ _
      · rfl
    · split <;> split <;>
        first
          | exact runHotelLeg_coherent _ _ _
          | rfl

/-- Witness for C1: a concrete successful reconciliation, with the
equivalence instantiated on it. -/
theorem C1_status_confirmed_iff_no_leg_failed_witness :
    (bookingAgentConfirm true envHappy payloadHappy "ab12").1 = .ok rHappy ∧
    (rHappy.status = .confirmed ↔
      rHappy.amadeusFlightOrderError = none ∧ rHappy.amadeusHotelBookingError = none) :=
  ⟨rfl, C1_status_confirmed_iff_no_leg_failed true envHappy payloadHappy "ab12" rHappy rfl⟩

/-- C2: for every `BookingConfirmationPayload` whose traveler list is empty
or missing, `bookingAgentConfirm` throws (`.error`) before issuing any
provider call: the agent state is still the initial one, whose call trace
is empty — no pricing, order, or hotel-booking request was made. -/
theorem C2_empty_travelers_fail_fast
    (configured : Bool) (env : ProviderEnv) (payload : BookingConfirmationPayload)
    (randToken : String)
    (h : payload.travelers = none ∨ payload.travelers = some []) :
    bookingAgentConfirm configured env payload randToken =
      (.error "Traveller details are required to finalize booking.", AgentState.initial) ∧
    AgentState.initial.calls = [] := by
  have hz : travelersLength payload.travelers = 0 := by
    rcases h with h | h <;> rw [h] <;> rfl
  constructor
  · simp [bookingAgentConfirm, hz]
  · rfl

/-- Witness for C2: a concrete payload with a missing traveler list. -/
theorem C2_empty_travelers_fail_fast_witness :
    (payloadNoTravelers.travelers = none ∨ payloadNoTravelers.travelers = some []) ∧
    (bookingAgentConfirm true envHappy payloadNoTravelers "tok" =
      (.error "Traveller details are required to finalize booking.", AgentState.initial) ∧
     AgentState.initial.calls = []) :=
  ⟨Or.inl rfl,
   C2_empty_travelers_fail_fast true envHappy payloadNoTravelers "tok" (Or.inl rfl)⟩

/-- C3 counterexample: a priced offer with an (explicit) empty
`travelerPricings` array and one requested traveler satisfies the claim's
premise (traveler-pricing count 0 < requested count 1), and the capacity
check does raise a mismatch — but its `supportedCount` is
`Math.max(1, 0) = 1`, which equals `requestedCount = 1` rather than being
strictly smaller. -/
theorem C3_counterexample :
    extractTravelerPricingCount (some (.obj (some 0))) = some 0 ∧ 0 < 1 ∧
    ensureFlightTravelerCapacity (.obj (some 0)) (some [()]) =
      .error ⟨.flight, 1, 1⟩ ∧
    ¬((1 : Nat) < 1) :=
  ⟨rfl, by decide, rfl, by decide⟩

/-- The single-pricing-call mismatch computation shared by the capacity
claims: a priced offer with too small a traveler-pricing count makes
`attemptFlightBooking` fail with the mismatch after one pricing call. -/
theorem attemptFlight_mismatch_helper
    (env : ProviderEnv) (payload : BookingConfirmationPayload)
    (strategy : PricingStrategy) (attempt : Nat) (st : AgentState)
    (pr : Option PricingResponse) (offer : FlightOfferJson) (c : Nat)
    (ts : List BookingTraveler)
    (henv : env.priceResult st.priceCalls strategy = .ok pr)
    (hoffer : ((pr.bind (·.data)).bind (·.flightOffers)).bind List.head? = some offer)
    (hc : extractTravelerPricingCount (some offer) = some c)
    (hts : payload.travelers = some ts)
    (hlt : c < ts.length) :
    attemptFlightBooking env payload strategy attempt st =
      (.error (.mismatch ⟨.flight, max 1 c, ts.length⟩),
       { st with priceCalls := st.priceCalls + 1,
                 calls := st.calls ++ [.price strategy] }) := by
  have hlen : (ts.length == 0) = false := by
    simp only [beq_eq_false_iff_ne, ne_eq]
    omega
  have honce : flightAttemptOnce env payload strategy st =
      (.error (.mismatch ⟨.flight, max 1 c, ts.length⟩),
       { st with priceCalls := st.priceCalls + 1,
                 calls := st.calls ++ [.price strategy] }) := by
    unfold flightAttemptOnce callPrice
    simp only [henv]
    simp only [hoffer]
    unfold ensureFlightTravelerCapacity travelersLength
    rw [hts, hlen, hc]
    simp [hlt]
  show attemptFlightBookingAux env payload strategy (2 + 1) attempt st = _
  rw [attemptFlightBookingAux_succ]
  rw [honce]
  simp [AgentError.isServerApi]

/-- C3 (amended): when the priced flight offer's traveler-pricing count `c`
is less than the requested traveler count, the flight leg fails immediately
with a `TravelPartyMismatch` whose `supportedCount = max 1 c` — so
`supportedCount ≤ requestedCount`, and strictly less whenever `c ≥ 1`
(equality occurs only for `c = 0` with one traveler) — after exactly the
one pricing call that revealed the mismatch: the mismatch is not caught by
the server-category retry loop and no order-creation call is made. -/
theorem C3_party_mismatch_not_retried
    (env : ProviderEnv) (payload : BookingConfirmationPayload)
    (strategy : PricingStrategy) (attempt : Nat) (st : AgentState)
    (pr : Option PricingResponse) (offer : FlightOfferJson) (c : Nat)
    (ts : List BookingTraveler)
    (henv : env.priceResult st.priceCalls strategy = .ok pr)
    (hoffer : ((pr.bind (·.data)).bind (·.flightOffers)).bind List.head? = some offer)
    (hc : extractTravelerPricingCount (some offer) = some c)
    (hts : payload.travelers = some ts)
    (hlt : c < ts.length) :
    attemptFlightBooking env payload strategy attempt st =
      (.error (.mismatch ⟨.flight, max 1 c, ts.length⟩),
       { st with priceCalls := st.priceCalls + 1,
                 calls := st.calls ++ [.price strategy] }) ∧
    max 1 c ≤ ts.length ∧ (1 ≤ c → max 1 c < ts.length) :=
  ⟨attemptFlight_mismatch_helper env payload strategy attempt st pr offer c ts
      henv hoffer hc hts hlt,
   by omega, by omega⟩

/-- Witness for C3 (amended): priced count 1, two travelers. -/
theorem C3_party_mismatch_not_retried_witness :
    attemptFlightBooking
        { priceResult := fun _ _ => .ok (some ⟨some ⟨some [.obj (some 1)]⟩⟩)
          orderResult := fun _ => .ok (some ⟨some ⟨some "ORD1"⟩⟩)
          hotelResult := fun _ => .ok (some ⟨some ⟨some "HB1", none⟩⟩) }
        { itineraryId := "itin-1", travelers := some [(), ()],
          amadeusFlightOffer := some (.obj (some 1)),
          amadeusHotelOffer := none, paymentIntentId := none }
        .default 1 AgentState.initial =
      (.error (.mismatch ⟨.flight, max 1 1, 2⟩),
       { AgentState.initial with priceCalls := 0 + 1,
                                 calls := [] ++ [.price .default] }) ∧
    max 1 1 ≤ 2 ∧ (1 ≤ 1 → max 1 1 < 2) :=
  C3_party_mismatch_not_retried _ _ .default 1 AgentState.initial
    (some ⟨some ⟨some [.obj (some 1)]⟩⟩) (.obj (some 1)) 1 [(), ()]
    rfl rfl rfl rfl (by decide)

theorem fetchAux_attempts_at_cap (rs : Nat → HttpResponse) (p : String)
    (fuel attempt : Nat) (h : MAX_AMADEUS_RETRY_ATTEMPTS ≤ attempt) :
    (amadeusFetchAux rs p fuel attempt).attemptsUsed = 1 := by
  have hng : ¬ attempt < MAX_AMADEUS_RETRY_ATTEMPTS := by omega
  cases fuel with
  | zero =>
      unfold amadeusFetchAux
      by_cases hok : (rs attempt).isOk <;> simp [hok]
  | succ fuel =>
      rw [amadeusFetchAux_succ]
      by_cases hok : (rs attempt).isOk
      · simp [hok]
      · simp [hok, hng]

theorem fetchAux_attempts_le (rs : Nat → HttpResponse) (p : String) :
    ∀ (fuel attempt : Nat),
      (amadeusFetchAux rs p fuel attempt).attemptsUsed ≤
        MAX_AMADEUS_RETRY_ATTEMPTS - attempt + 1 := by
  intro fuel
  induction fuel with
  | zero =>
      intro attempt
      unfold amadeusFetchAux
      by_cases hok : (rs attempt).isOk <;> simp [hok]
  | succ fuel ih =>
      intro attempt
      rw [amadeusFetchAux_succ]
      by_cases hok : (rs attempt).isOk
      · simp [hok]
      · by_cases hlt : attempt < MAX_AMADEUS_RETRY_ATTEMPTS
        · by_cases h401 : (rs attempt).status = 401
          · have := ih (attempt + 1)
            simp [hok, h401, hlt]
            omega
          · by_cases h429 : (rs attempt).status = 429
            · have := ih (attempt + 1)
              simp [hok, h401, h429, hlt]
              omega
            · simp [hok, h401, h429]
        · simp [hok, hlt]

theorem fetch_attempts_le3 (rs : Nat → HttpResponse) (p : String) :
    (amadeusFetch rs p 1).attemptsUsed ≤ 3 := by
  have := fetchAux_attempts_le rs p MAX_AMADEUS_RETRY_ATTEMPTS 1
  simpa [amadeusFetch, MAX_AMADEUS_RETRY_ATTEMPTS] using this

/-- C4 counterexample: two consecutive 401 responses followed by a 200.
The second consecutive 401 is *not* surfaced as an auth provider error —
the transport invalidates the token again and makes a third attempt, which
succeeds. -/
theorem C4_counterexample :
    (fun n => if n ≤ 2 then resp401 else respOk200) 1 = resp401 ∧
    (fun n => if n ≤ 2 then resp401 else respOk200) 2 = resp401 ∧
    resp401.status = 401 ∧
    amadeusFetch (fun n => if n ≤ 2 then resp401 else respOk200) "/v1/x" 1 =
      { result := .ok (), waits := [], tokenInvalidations := 2, attemptsUsed := 3 } :=
  ⟨rfl, rfl, rfl, rfl⟩

/-- C4 (amended): on HTTP 401 the cached token is invalidated and the
request retried, with at most 3 total attempts; the second consecutive 401
triggers one more invalidate-and-retry, and it is the *third* consecutive
401 that is surfaced to the caller as a provider error with category
`auth`. -/
theorem C4_auth_retry (responses : Nat → HttpResponse) (path : String)
    (h1 : (responses 1).status = 401) (h2 : (responses 2).status = 401)
    (h3 : (responses 3).status = 401) :
    amadeusFetch responses path 1 =
      { result := .error (buildAmadeusError (responses 3) path),
        waits := [], tokenInvalidations := 2, attemptsUsed := 3 } ∧
    (buildAmadeusError (responses 3) path).category = .auth ∧
    (∀ (rs : Nat → HttpResponse) (p : String),
      (amadeusFetch rs p 1).attemptsUsed ≤ 3) := by
  have hok1 : (responses 1).isOk = false := by simp [HttpResponse.isOk, h1]
  have hok2 : (responses 2).isOk = false := by simp [HttpResponse.isOk, h2]
  have hok3 : (responses 3).isOk = false := by simp [HttpResponse.isOk, h3]
  have e3 : amadeusFetchAux responses path 1 3 =
      { result := .error (buildAmadeusError (responses 3) path),
        waits := [], tokenInvalidations := 0, attemptsUsed := 1 } := by
    rw [show (1 : Nat) = 0 + 1 from rfl, amadeusFetchAux_succ]
    simp [hok3, h3, MAX_AMADEUS_RETRY_ATTEMPTS]
  have e2 : amadeusFetchAux responses path 2 2 =
      { result := .error (buildAmadeusError (responses 3) path),
        waits := [], tokenInvalidations := 1, attemptsUsed := 2 } := by
    rw [show (2 : Nat) = 1 + 1 from rfl, amadeusFetchAux_succ]
    simp [hok2, h2, MAX_AMADEUS_RETRY_ATTEMPTS, e3]
  have e1 : amadeusFetchAux responses path 3 1 =
      { result := .error (buildAmadeusError (responses 3) path),
        waits := [], tokenInvalidations := 2, attemptsUsed := 3 } := by
    rw [show (3 : Nat) = 2 + 1 from rfl, amadeusFetchAux_succ]
    simp [hok1, h1, MAX_AMADEUS_RETRY_ATTEMPTS, e2]
  refine ⟨?_, ?_, fun rs p => fetch_attempts_le3 rs p⟩
  · show amadeusFetchAux responses path MAX_AMADEUS_RETRY_ATTEMPTS 1 = _
    rw [show MAX_AMADEUS_RETRY_ATTEMPTS = 3 from rfl]
    exact e1
  · simp [buildAmadeusError, AmadeusApiError.category, AmadeusApiError.primaryError,
      determineAmadeusCategory, h3]

/-- Witness for C4 (amended): every response is a 401. -/
theorem C4_auth_retry_witness :
    amadeusFetch (fun _ => resp401) "/v1/x" 1 =
      { result := .error (buildAmadeusError ((fun (_ : Nat) => resp401) 3) "/v1/x"),
        waits := [], tokenInvalidations := 2, attemptsUsed := 3 } ∧
    (buildAmadeusError ((fun (_ : Nat) => resp401) 3) "/v1/x").category = .auth ∧
    (∀ (rs : Nat → HttpResponse) (p : String),
      (amadeusFetch rs p 1).attemptsUsed ≤ 3) :=
  C4_auth_retry (fun _ => resp401) "/v1/x" rfl rfl rfl

/-- C5 counterexample: a `Retry-After: 0` header is present, and by the
claim its value (0 seconds) should determine the wait; but `0` is falsy in
the `retryAfterSeconds ? ... : ...` test, so the transport sleeps the
500ms/1000ms exponential backoff instead. -/
theorem C5_counterexample :
    resp429hdr0.retryAfterHeader = some "0" ∧
    jsParseInt "0" = some 0 ∧
    amadeusFetch (fun _ => resp429hdr0) "/v1/x" 1 =
      { result := .error (buildAmadeusError resp429hdr0 "/v1/x"),
        waits := [500, 1000], tokenInvalidations := 0, attemptsUsed := 3 } ∧
    ¬((500 : Int) = 0 * 1000) :=
  ⟨rfl, rfl, rfl, by decide⟩

/-- C5 (amended): on HTTP 429 the request is retried, up to 3 total
attempts; the wait honors the `Retry-After` header only when the header is
present and parses to a nonzero number of seconds (then the wait is that
value in ms); otherwise (absent, unparseable or zero) the wait is the
exponential backoff `min(500 * 2^(attempt-1), 8000)` ms — 500ms then
1000ms here; a 429 on the final attempt is raised as a provider error with
category `rate_limit`. -/
theorem C5_rate_limit_retry (responses : Nat → HttpResponse) (path : String)
    (s1 : String) (k : Int)
    (h1 : (responses 1).status = 429) (h2 : (responses 2).status = 429)
    (h3 : (responses 3).status = 429)
    (hh1 : (responses 1).retryAfterHeader = some s1)
    (hk : jsParseInt s1 = some k) (hk0 : k ≠ 0)
    (hh2 : (responses 2).retryAfterHeader = none) :
    amadeusFetch responses path 1 =
      { result := .error (buildAmadeusError (responses 3) path),
        waits := [k * 1000, 1000], tokenInvalidations := 0, attemptsUsed := 3 } ∧
    (buildAmadeusError (responses 3) path).category = .rate_limit ∧
    (∀ (rs : Nat → HttpResponse) (p : String),
      (amadeusFetch rs p 1).attemptsUsed ≤ 3) ∧
    (∀ attempt : Nat,
      ((min (RATE_LIMIT_BASE_DELAY_MS * 2 ^ (attempt - 1)) 8000 : Nat) : Int) ≤ 8000) := by
  have hok1 : (responses 1).isOk = false := by simp [HttpResponse.isOk, h1]
  have hok2 : (responses 2).isOk = false := by simp [HttpResponse.isOk, h2]
  have hok3 : (responses 3).isOk = false := by simp [HttpResponse.isOk, h3]
  have hs1 : s1 ≠ "" := by
    intro hempty
    rw [hempty] at hk
    simp [jsParseInt, parseDigits] at hk
  have hw1 : rateLimitBackoffMs (responses 1).retryAfterHeader 1 = k * 1000 := by
    rw [hh1]
    simp [rateLimitBackoffMs, truthyStr, hs1, hk, hk0]
  have hw2 : rateLimitBackoffMs (responses 2).retryAfterHeader 2 = 1000 := by
    rw [hh2]
    simp [rateLimitBackoffMs, truthyStr, RATE_LIMIT_BASE_DELAY_MS]
  have e3 : amadeusFetchAux responses path 1 3 =
      { result := .error (buildAmadeusError (responses 3) path),
        waits := [], tokenInvalidations := 0, attemptsUsed := 1 } := by
    rw [show (1 : Nat) = 0 + 1 from rfl, amadeusFetchAux_succ]
    simp [hok3, h3, MAX_AMADEUS_RETRY_ATTEMPTS]
  have e2 : amadeusFetchAux responses path 2 2 =
      { result := .error (buildAmadeusError (responses 3) path),
        waits := [1000], tokenInvalidations := 0, attemptsUsed := 2 } := by
    rw [show (2 : Nat) = 1 + 1 from rfl, amadeusFetchAux_succ]
    simp [hok2, h2, MAX_AMADEUS_RETRY_ATTEMPTS, e3, hw2]
  have e1 : amadeusFetchAux responses path 3 1 =
      { result := .error (buildAmadeusError (responses 3) path),
        waits := [k * 1000, 1000], tokenInvalidations := 0, attemptsUsed := 3 } := by
    rw [show (3 : Nat) = 2 + 1 from rfl, amadeusFetchAux_succ]
    simp [hok1, h1, MAX_AMADEUS_RETRY_ATTEMPTS, e2, hw1]
  refine ⟨?_, ?_, fun rs p => fetch_attempts_le3 rs p, ?_⟩
  · show amadeusFetchAux responses path MAX_AMADEUS_RETRY_ATTEMPTS 1 = _
    rw [show MAX_AMADEUS_RETRY_ATTEMPTS = 3 from rfl]
    exact e1
  · simp [buildAmadeusError, AmadeusApiError.category, AmadeusApiError.primaryError,
      determineAmadeusCategory, h3]
  · intro attempt
    have : min (RATE_LIMIT_BASE_DELAY_MS * 2 ^ (attempt - 1)) 8000 ≤ 8000 :=
      Nat.min_le_right _ _
    exact_mod_cast this

/-- Witness for C5 (amended): `Retry-After: 7` then no header then a final
429. -/
theorem C5_rate_limit_retry_witness :
    amadeusFetch
        (fun n => if n = 1 then ⟨429, some "7", some [], ""⟩
                  else if n = 2 then ⟨429, none, some [], ""⟩
                  else ⟨429, none, some [], ""⟩) "/v1/x" 1 =
      { result := .error (buildAmadeusError
          ((fun n => if n = 1 then (⟨429, some "7", some [], ""⟩ : HttpResponse)
                     else if n = 2 then ⟨429, none, some [], ""⟩
                     else ⟨429, none, some [], ""⟩) 3) "/v1/x"),
        waits := [7 * 1000, 1000], tokenInvalidations := 0, attemptsUsed := 3 } ∧
    (buildAmadeusError
        ((fun n => if n = 1 then (⟨429, some "7", some [], ""⟩ : HttpResponse)
                   else if n = 2 then ⟨429, none, some [], ""⟩
                   else ⟨429, none, some [], ""⟩) 3) "/v1/x").category = .rate_limit ∧
    (∀ (rs : Nat → HttpResponse) (p : String),
      (amadeusFetch rs p 1).attemptsUsed ≤ 3) ∧
    (∀ attempt : Nat,
      ((min (RATE_LIMIT_BASE_DELAY_MS * 2 ^ (attempt - 1)) 8000 : Nat) : Int) ≤ 8000) :=
  C5_rate_limit_retry _ "/v1/x" "7" 7 rfl rfl rfl rfl rfl (by decide) rfl

/-- C6 counterexample: a `server`-category error that also carries the
segment-sell-failure code. The flight leg does retry 3 times — but the
third server failure is then caught by the segment-sell handler, which
starts a whole second (compatibility) round of 3 more pricing attempts:
6 pricing calls and 4 backoff sleeps in all, not "exactly 3 total
attempts ... instead of being retried again". -/
theorem C6_counterexample :
    errServerSell.category = .server ∧
    isSegmentSellFailure errServerSell = true ∧
    (runFlightLeg envServerSell payloadFlightOnly AgentState.initial).2.calls =
      [.price .default, .price .default, .price .default,
       .price .compatibility, .price .compatibility, .price .compatibility] ∧
    (runFlightLeg envServerSell payloadFlightOnly AgentState.initial).2.waits =
      [800, 1600, 800, 1600] ∧
    (runFlightLeg envServerSell payloadFlightOnly AgentState.initial).1.pending = true :=
  ⟨rfl, rfl, rfl, rfl, rfl⟩

theorem flightLeg_const_err_server
    (env : ProviderEnv) (payload : BookingConfirmationPayload) (e : AmadeusApiError)
    (hp : ∀ n s, env.priceResult n s = .error (.api e))
    (hcat : e.category = .server)
    (hnsell : isSegmentSellFailure e = false)
    (hnp : isTravelerNotPricedError e = false) :
    runFlightLeg env payload AgentState.initial =
      ({ flightOrderId := none, flightOrder := none,
         orderError := some (extractAmadeusMessage (.api e) "Amadeus flight booking failed"),
         pending := true, availAfter := false },
       { priceCalls := 3, orderCalls := 0, hotelCalls := 0,
         calls := [.price .default, .price .default, .price .default],
         waits := [800, 1600] }) := by
  have hsrv : AgentError.isServerApi (AgentError.api e) = true := by
    simp [AgentError.isServerApi, hcat]
  have hdis : (e.category == AmadeusErrorCategory.auth ||
      e.category == AmadeusErrorCategory.server) = true := by
    rw [hcat]
    rfl
  have honce : ∀ stt : AgentState, flightAttemptOnce env payload .default stt =
      (.error (.api e),
       { stt with priceCalls := stt.priceCalls + 1,
                  calls := stt.calls ++ [.price .default] }) := by
    intro stt
    simp [flightAttemptOnce, callPrice, hp, liftServiceError]
  have s3 : attemptFlightBookingAux env payload .default 1 3
      { priceCalls := 2, orderCalls := 0, hotelCalls := 0,
        calls := [.price .default, .price .default], waits := [800, 1600] } =
      (.error (.api e),
       { priceCalls := 3, orderCalls := 0, hotelCalls := 0,
         calls := [.price .default, .price .default, .price .default],
         waits := [800, 1600] }) := by
    rw [show (1 : Nat) = 0 + 1 from rfl, attemptFlightBookingAux_succ, honce]
    simp [hsrv, MAX_FLIGHT_ORDER_ATTEMPTS]
  have s2 : attemptFlightBookingAux env payload .default 2 2
      { priceCalls := 1, orderCalls := 0, hotelCalls := 0,
        calls := [.price .default], waits := [800] } =
      (.error (.api e),
       { priceCalls := 3, orderCalls := 0, hotelCalls := 0,
         calls := [.price .default, .price .default, .price .default],
         waits := [800, 1600] }) := by
    rw [show (2 : Nat) = 1 + 1 from rfl, attemptFlightBookingAux_succ, honce]
    simp [hsrv, MAX_FLIGHT_ORDER_ATTEMPTS, FLIGHT_ORDER_RETRY_BASE_DELAY_MS, s3]
  have s1 : attemptFlightBooking env payload .default 1 AgentState.initial =
      (.error (.api e),
       { priceCalls := 3, orderCalls := 0, hotelCalls := 0,
         calls := [.price .default, .price .default, .price .default],
         waits := [800, 1600] }) := by
    show attemptFlightBookingAux env payload .default (2 + 1) 1 AgentState.initial = _
    rw [attemptFlightBookingAux_succ, honce]
    simp [hsrv, MAX_FLIGHT_ORDER_ATTEMPTS, FLIGHT_ORDER_RETRY_BASE_DELAY_MS, AgentState.initial, s2]
  simp only [runFlightLeg, s1]
  simp only [handleFlightCatch, hnp, hnsell, Bool.false_eq_true, if_false]
  simp [flightUnhandledFailure, hdis]

theorem flightLeg_const_err_auth
    (env : ProviderEnv) (payload : BookingConfirmationPayload) (e : AmadeusApiError)
    (hp : ∀ n s, env.priceResult n s = .error (.api e))
    (hcat : e.category = .auth)
    (hnsell : isSegmentSellFailure e = false)
    (hnp : isTravelerNotPricedError e = false) :
    runFlightLeg env payload AgentState.initial =
      ({ flightOrderId := none, flightOrder := none,
         orderError := some (extractAmadeusMessage (.api e) "Amadeus flight booking failed"),
         pending := true, availAfter := false },
       { priceCalls := 1, orderCalls := 0, hotelCalls := 0,
         calls := [.price .default], waits := [] }) := by
  have hnsrvb : AgentError.isServerApi (AgentError.api e) = false := by
    simp [AgentError.isServerApi, hcat]
  have hdis : (e.category == AmadeusErrorCategory.auth ||
      e.category == AmadeusErrorCategory.server) = true := by
    rw [hcat]
    rfl
  have honce : ∀ stt : AgentState, flightAttemptOnce env payload .default stt =
      (.error (.api e),
       { stt with priceCalls := stt.priceCalls + 1,
                  calls := stt.calls ++ [.price .default] }) := by
    intro stt
    simp [flightAttemptOnce, callPrice, hp, liftServiceError]
  have s1 : attemptFlightBooking env payload .default 1 AgentState.initial =
      (.error (.api e),
       { priceCalls := 1, orderCalls := 0, hotelCalls := 0,
         calls := [.price .default], waits := [] }) := by
    show attemptFlightBookingAux env payload .default (2 + 1) 1 AgentState.initial = _
    rw [attemptFlightBookingAux_succ, honce]
    simp [hnsrvb, AgentState.initial]
  simp only [runFlightLeg, s1]
  simp only [handleFlightCatch, hnp, hnsell, Bool.false_eq_true, if_false]
  simp [flightUnhandledFailure, hdis]

/-- C6 (amended): for both legs, a provider error with category `server`
triggers retries of the whole leg up to exactly 3 total attempts with
backoff 800ms then 1600ms; after the third server-category failure the leg
is marked failed (error message recorded, status pending, provider
disabled) — except that a flight-leg failure that is *also* a segment-sell
failure triggers one further compatibility-strategy round before the leg
is marked failed. Stated here for server errors that are not segment-sell
failures (flight) and any server error (hotel). -/
theorem C6_server_three_attempts
    (env : ProviderEnv) (payload : BookingConfirmationPayload)
    (e e2 : AmadeusApiError)
    (hp : ∀ n s, env.priceResult n s = .error (.api e))
    (hcat : e.category = .server)
    (hnsell : isSegmentSellFailure e = false)
    (hnp : isTravelerNotPricedError e = false)
    (hh : ∀ n, env.hotelResult n = .error (.api e2))
    (hcat2 : e2.category = .server)
    (hng : isInvalidHotelGuestError e2 = false) :
    runFlightLeg env payload AgentState.initial =
      ({ flightOrderId := none, flightOrder := none,
         orderError := some (extractAmadeusMessage (.api e) "Amadeus flight booking failed"),
         pending := true, availAfter := false },
       { priceCalls := 3, orderCalls := 0, hotelCalls := 0,
         calls := [.price .default, .price .default, .price .default],
         waits := [800, 1600] }) ∧
    runHotelLeg env payload AgentState.initial =
      ({ hotelReservationId := none, hotelBooking := none,
         bookingError := some (extractAmadeusMessage (.api e2) "Amadeus hotel booking failed"),
         pending := true, availAfter := false },
       { priceCalls := 0, orderCalls := 0, hotelCalls := 3,
         calls := [.bookHotel, .bookHotel, .bookHotel],
         waits := [800, 1600] }) := by
  have hsrv2 : ServiceError.isServerApi (ServiceError.api e2) = true := by
    simp [ServiceError.isServerApi, hcat2]
  have hdis2 : (e2.category == AmadeusErrorCategory.auth ||
      e2.category == AmadeusErrorCategory.server) = true := by
    rw [hcat2]
    rfl
  constructor
  · exact flightLeg_const_err_server env payload e hp hcat hnsell hnp
  · have honceH : ∀ stt : AgentState,
        (callHotel env stt).1 = .error (.api e2) := by
      intro stt
      simp [callHotel, hh]
    have t3 : attemptHotelBookingAux env 1 3
        { priceCalls := 0, orderCalls := 0, hotelCalls := 2,
          calls := [.bookHotel, .bookHotel], waits := [800, 1600] } =
        (.error (.api e2),
         { priceCalls := 0, orderCalls := 0, hotelCalls := 3,
           calls := [.bookHotel, .bookHotel, .bookHotel],
           waits := [800, 1600] }) := by
      rw [show (1 : Nat) = 0 + 1 from rfl, attemptHotelBookingAux_succ]
      simp [callHotel, hh, hsrv2, MAX_HOTEL_ORDER_ATTEMPTS, liftServiceError]
    have t2 : attemptHotelBookingAux env 2 2
        { priceCalls := 0, orderCalls := 0, hotelCalls := 1,
          calls := [.bookHotel], waits := [800] } =
        (.error (.api e2),
         { priceCalls := 0, orderCalls := 0, hotelCalls := 3,
           calls := [.bookHotel, .bookHotel, .bookHotel],
           waits := [800, 1600] }) := by
      rw [show (2 : Nat) = 1 + 1 from rfl, attemptHotelBookingAux_succ]
      simp [callHotel, hh, hsrv2, MAX_HOTEL_ORDER_ATTEMPTS, HOTEL_ORDER_RETRY_BASE_DELAY_MS, t3]
    have t1 : attemptHotelBooking env 1 AgentState.initial =
        (.error (.api e2),
         { priceCalls := 0, orderCalls := 0, hotelCalls := 3,
           calls := [.bookHotel, .bookHotel, .bookHotel],
           waits := [800, 1600] }) := by
      show attemptHotelBookingAux env (2 + 1) 1 AgentState.initial = _
      rw [attemptHotelBookingAux_succ]
      simp [callHotel, hh, hsrv2, MAX_HOTEL_ORDER_ATTEMPTS, HOTEL_ORDER_RETRY_BASE_DELAY_MS, AgentState.initial, t2]
    simp only [runHotelLeg, t1]
    simp only [handleHotelCatch, hng, Bool.false_eq_true, if_false]
    simp [hotelUnhandledFailure, hdis2]

/-- Witness for C6 (amended): a plain 500 with no error entries (flight)
and a 503 (hotel). -/
theorem C6_server_three_attempts_witness :
    runFlightLeg
        { priceResult := fun _ _ => .error (.api ⟨500, "/p", [], none, none⟩)
          orderResult := fun _ => .ok none
          hotelResult := fun _ => .error (.api ⟨503, "/h", [], none, none⟩) }
        payloadFlightOnly AgentState.initial =
      ({ flightOrderId := none, flightOrder := none,
         orderError := some (extractAmadeusMessage
           (.api ⟨500, "/p", [], none, none⟩) "Amadeus flight booking failed"),
         pending := true, availAfter := false },
       { priceCalls := 3, orderCalls := 0, hotelCalls := 0,
         calls := [.price .default, .price .default, .price .default],
         waits := [800, 1600] }) ∧
    runHotelLeg
        { priceResult := fun _ _ => .error (.api ⟨500, "/p", [], none, none⟩)
          orderResult := fun _ => .ok none
          hotelResult := fun _ => .error (.api ⟨503, "/h", [], none, none⟩) }
        payloadFlightOnly AgentState.initial =
      ({ hotelReservationId := none, hotelBooking := none,
         bookingError := some (extractAmadeusMessage
           (.api ⟨503, "/h", [], none, none⟩) "Amadeus hotel booking failed"),
         pending := true, availAfter := false },
       { priceCalls := 0, orderCalls := 0, hotelCalls := 3,
         calls := [.bookHotel, .bookHotel, .bookHotel],
         waits := [800, 1600] }) :=
  C6_server_three_attempts _ payloadFlightOnly
    ⟨500, "/p", [], none, none⟩ ⟨503, "/h", [], none, none⟩
    (fun _ _ => rfl) rfl (by decide) (by decide)
    (fun _ => rfl) rfl (by decide)

/-- C7: when flight order creation fails with a segment-sell-failure
provider error (code 34651 or title "SEGMENT SELL FAILURE"), exactly one
additional booking attempt is made with the "compatibility" pricing
strategy (the call trace holds exactly one compatibility pricing call);
when that attempt succeeds, the result carries the flight order id, no
recorded flight error, and status "confirmed" when nothing else failed
(no hotel offer here). -/
theorem C7_segment_sell_compat_retry
    (env : ProviderEnv) (payload : BookingConfirmationPayload) (tok : String)
    (e : AmadeusApiError) (offer foffer : FlightOfferJson) (id : String)
    (ts : List BookingTraveler)
    (hsell : isSegmentSellFailure e = true)
    (hnp : isTravelerNotPricedError e = false)
    (hnsrv : e.category ≠ .server)
    (hp : ∀ n s, env.priceResult n s = .ok (some ⟨some ⟨some [offer]⟩⟩))
    (hoffer : extractTravelerPricingCount (some offer) = none)
    (ho0 : env.orderResult 0 = .error (.api e))
    (ho1 : env.orderResult 1 = .ok (some ⟨some ⟨some id⟩⟩))
    (hts : payload.travelers = some ts) (htsne : ts ≠ [])
    (hfo : payload.amadeusFlightOffer = some foffer)
    (hho : payload.amadeusHotelOffer = none)
    (hid : id ≠ "") :
    bookingAgentConfirm true env payload tok =
      (.ok { confirmationNumber := confirmationNumberFor payload.itineraryId tok
             status := .confirmed
             itineraryId := payload.itineraryId
             paymentIntentId := payload.paymentIntentId
             amadeusFlightOrderId := some id
             amadeusHotelReservationId := none
             amadeusFlightOrder := some ⟨some ⟨some id⟩⟩
             amadeusHotelBooking := none
             amadeusFlightOrderError := none
             amadeusHotelBookingError := none },
       { priceCalls := 2, orderCalls := 2, hotelCalls := 0,
         calls := [.price .default, .createOrder, .price .compatibility, .createOrder],
         waits := [] }) := by
  have htslen : ts.length ≠ 0 := by
    intro h
    exact htsne (List.length_eq_zero.mp h)
  have hlenf : (ts.length == 0) = false := by
    simp only [beq_eq_false_iff_ne, ne_eq]
    exact htslen
  have hnsrvb : AgentError.isServerApi (.api e) = false := by
    simp [AgentError.isServerApi, hnsrv]
  have fa1 : flightAttemptOnce env payload .default AgentState.initial =
      (.error (.api e),
       { priceCalls := 1, orderCalls := 1, hotelCalls := 0,
         calls := [.price .default, .createOrder], waits := [] }) := by
    unfold flightAttemptOnce callPrice callOrder
    simp [AgentState.initial, hp, ho0, ensureFlightTravelerCapacity, travelersLength,
      hts, hlenf, hoffer, liftServiceError]
  have ab1 : attemptFlightBooking env payload .default 1 AgentState.initial =
      (.error (.api e),
       { priceCalls := 1, orderCalls := 1, hotelCalls := 0,
         calls := [.price .default, .createOrder], waits := [] }) := by
    show attemptFlightBookingAux env payload .default (2 + 1) 1 AgentState.initial = _
    rw [attemptFlightBookingAux_succ, fa1]
    simp [hnsrvb]
  have fa2 : flightAttemptOnce env payload .compatibility
      { priceCalls := 1, orderCalls := 1, hotelCalls := 0,
        calls := [.price .default, .createOrder], waits := [] } =
      (.ok (some ⟨some ⟨some id⟩⟩),
       { priceCalls := 2, orderCalls := 2, hotelCalls := 0,
         calls := [.price .default, .createOrder, .price .compatibility, .createOrder],
         waits := [] }) := by
    unfold flightAttemptOnce callPrice callOrder
    simp [hp, ho1, ensureFlightTravelerCapacity, travelersLength, hts, hlenf, hoffer]
  have ab2 : attemptFlightBooking env payload .compatibility 1
      { priceCalls := 1, orderCalls := 1, hotelCalls := 0,
        calls := [.price .default, .createOrder], waits := [] } =
      (.ok (some ⟨some ⟨some id⟩⟩),
       { priceCalls := 2, orderCalls := 2, hotelCalls := 0,
         calls := [.price .default, .createOrder, .price .compatibility, .createOrder],
         waits := [] }) := by
    show attemptFlightBookingAux env payload .compatibility (2 + 1) 1 _ = _
    rw [attemptFlightBookingAux_succ, fa2]
  have hleg : runFlightLeg env payload AgentState.initial =
      ({ flightOrderId := some id, flightOrder := some ⟨some ⟨some id⟩⟩,
         orderError := none, pending := false, availAfter := true },
       { priceCalls := 2, orderCalls := 2, hotelCalls := 0,
         calls := [.price .default, .createOrder, .price .compatibility, .createOrder],
         waits := [] }) := by
    simp only [runFlightLeg, ab1]
    simp only [handleFlightCatch, hnp, hsell, Bool.false_eq_true, if_false, if_true]
    rw [ab2]
    simp [orderIdTruthy, hid]
  have hlen0 : (travelersLength payload.travelers == 0) = false := by
    rw [hts]
    simpa [travelersLength] using hlenf
  unfold bookingAgentConfirm
  rw [hlen0]
  simp only [Bool.false_eq_true, if_false]
  simp [hfo, hleg, hho, hotelOfferIdTruthy, skippedHotelLeg]

/-- Witness for C7: a 400 segment-sell error, two travelers. -/
theorem C7_segment_sell_compat_retry_witness :
    bookingAgentConfirm true
      { priceResult := fun _ _ => .ok (some ⟨some ⟨some [.obj none]⟩⟩)
        orderResult := fun n =>
          if n = 0 then
            .error (.api ⟨400, "/v1/booking/flight-orders",
              [{ code := some "34651", title := some "SEGMENT SELL FAILURE",
                 detail := none, status := none, source := none }], none, none⟩)
          else .ok (some ⟨some ⟨some "ORD77"⟩⟩)
        hotelResult := fun _ => .ok none }
      { itineraryId := "trip-42", travelers := some [(), ()],
        amadeusFlightOffer := some (.obj none),
        amadeusHotelOffer := none, paymentIntentId := none } "zz99" =
      (.ok { confirmationNumber := confirmationNumberFor "trip-42" "zz99"
             status := .confirmed
             itineraryId := "trip-42"
             paymentIntentId := none
             amadeusFlightOrderId := some "ORD77"
             amadeusFlightOrder := some ⟨some ⟨some "ORD77"⟩⟩
             amadeusHotelReservationId := none
             amadeusHotelBooking := none
             amadeusFlightOrderError := none
             amadeusHotelBookingError := none },
       { priceCalls := 2, orderCalls := 2, hotelCalls := 0,
         calls := [.price .default, .createOrder, .price .compatibility, .createOrder],
         waits := [] }) :=
  C7_segment_sell_compat_retry _ _ "zz99"
    ⟨400, "/v1/booking/flight-orders",
      [{ code := some "34651", title := some "SEGMENT SELL FAILURE",
         detail := none, status := none, source := none }], none, none⟩
    (.obj none) (.obj none) "ORD77" [(), ()]
    (by decide) (by decide) (by decide)
    (fun n s => rfl) rfl rfl rfl rfl (by decide) rfl rfl (by decide)

/-- C8: for every request made while the provider is unconfigured (client
id or secret absent/empty), `bookingAgentConfirm` attempts neither leg (the
call trace stays empty) and, whenever it returns a result, that result has
status "confirmed" and no flight order id, hotel reservation id, or
provider payloads populated. -/
theorem C8_unconfigured_skips_both_legs
    (clientId clientSecret : Option String) (env : ProviderEnv)
    (payload : BookingConfirmationPayload) (tok : String)
    (hcfg : isAmadeusConfigured clientId clientSecret = false) :
    (bookingAgentConfirm (isAmadeusConfigured clientId clientSecret) env payload tok).2.calls
        = [] ∧
    (∀ r, (bookingAgentConfirm (isAmadeusConfigured clientId clientSecret) env payload tok).1
        = .ok r →
      r.status = .confirmed ∧ r.amadeusFlightOrderId = none ∧
      r.amadeusHotelReservationId = none ∧ r.amadeusFlightOrder = none ∧
      r.amadeusHotelBooking = none ∧ r.amadeusFlightOrderError = none ∧
      r.amadeusHotelBookingError = none) := by
  rw [hcfg]
  unfold bookingAgentConfirm
  by_cases hg : (travelersLength payload.travelers == 0) = true
  · rw [if_pos hg]
    refine ⟨rfl, ?_⟩
    intro r h
    simp at h
  · rw [if_neg hg]
    constructor
    · simp [AgentState.initial]
    · intro r h
      simp only [Bool.false_and, Bool.false_eq_true, if_false, Except.ok.injEq] at h
      subst h
      simp [skippedFlightLeg, skippedHotelLeg]

/-- Witness for C8: missing client id. -/
theorem C8_unconfigured_skips_both_legs_witness :
    (bookingAgentConfirm (isAmadeusConfigured none (some "secret")) envHappy
        payloadHappy "ab12").2.calls = [] ∧
    (∀ r, (bookingAgentConfirm (isAmadeusConfigured none (some "secret")) envHappy
        payloadHappy "ab12").1 = .ok r →
      r.status = .confirmed ∧ r.amadeusFlightOrderId = none ∧
      r.amadeusHotelReservationId = none ∧ r.amadeusFlightOrder = none ∧
      r.amadeusHotelBooking = none ∧ r.amadeusFlightOrderError = none ∧
      r.amadeusHotelBookingError = none) :=
  C8_unconfigured_skips_both_legs none (some "secret") envHappy payloadHappy "ab12" rfl

theorem driver_flight_disabled
    (env : ProviderEnv) (payload : BookingConfirmationPayload) (tok : String)
    (fo : FlightLegOutcome) (st' : AgentState)
    (hleg : runFlightLeg env payload AgentState.initial = (fo, st'))
    (havail : fo.availAfter = false)
    (hlen : (travelersLength payload.travelers == 0) = false)
    (hfo : payload.amadeusFlightOffer.isSome = true) :
    bookingAgentConfirm true env payload tok =
      (.ok { confirmationNumber := confirmationNumberFor payload.itineraryId tok
             status := if fo.pending then .pending else .confirmed
             itineraryId := payload.itineraryId
             paymentIntentId := payload.paymentIntentId
             amadeusFlightOrderId := fo.flightOrderId
             amadeusHotelReservationId := none
             amadeusFlightOrder := fo.flightOrder
             amadeusHotelBooking := none
             amadeusFlightOrderError := fo.orderError
             amadeusHotelBookingError := none },
       st') := by
  unfold bookingAgentConfirm
  rw [hlen]
  simp [hfo, hleg, havail, skippedHotelLeg]

/-- C9: after the flight leg fails with an unhandled provider error of
category `auth` or `server` (first conjunct), or with a travel-party
mismatch (second conjunct), no further provider call is made in the same
reconciliation: the hotel leg is skipped entirely even though a cached
hotel offer is present (no hotel-booking call in the trace), its error
field stays empty, and the result reflects only the flight-leg failure
(status pending, flight error populated, hotel fields empty). -/
theorem C9_flight_failure_disables_hotel :
    (∀ (env : ProviderEnv) (payload : BookingConfirmationPayload) (tok : String)
       (e : AmadeusApiError) (ts : List BookingTraveler) (foffer : FlightOfferJson)
       (href : AmadeusHotelOfferRef),
      (e.category = .auth ∨ e.category = .server) →
      isTravelerNotPricedError e = false →
      isSegmentSellFailure e = false →
      (∀ n s, env.priceResult n s = .error (.api e)) →
      payload.travelers = some ts → ts ≠ [] →
      payload.amadeusFlightOffer = some foffer →
      payload.amadeusHotelOffer = some href → href.offerId ≠ "" →
      (bookingAgentConfirm true env payload tok).1 =
        .ok { confirmationNumber := confirmationNumberFor payload.itineraryId tok
              status := .pending
              itineraryId := payload.itineraryId
              paymentIntentId := payload.paymentIntentId
              amadeusFlightOrderId := none
              amadeusHotelReservationId := none
              amadeusFlightOrder := none
              amadeusHotelBooking := none
              amadeusFlightOrderError :=
                some (extractAmadeusMessage (.api e) "Amadeus flight booking failed")
              amadeusHotelBookingError := none } ∧
      (bookingAgentConfirm true env payload tok).2.hotelCalls = 0 ∧
      ProviderCall.bookHotel ∉ (bookingAgentConfirm true env payload tok).2.calls) ∧
    (∀ (env : ProviderEnv) (payload : BookingConfirmationPayload) (tok : String)
       (pr : Option PricingResponse) (offer : FlightOfferJson) (c : Nat)
       (ts : List BookingTraveler) (foffer : FlightOfferJson)
       (href : AmadeusHotelOfferRef),
      env.priceResult 0 .default = .ok pr →
      ((pr.bind (·.data)).bind (·.flightOffers)).bind List.head? = some offer →
      extractTravelerPricingCount (some offer) = some c →
      payload.travelers = some ts → c < ts.length →
      payload.amadeusFlightOffer = some foffer →
      payload.amadeusHotelOffer = some href → href.offerId ≠ "" →
      (bookingAgentConfirm true env payload tok).1 =
        .ok { confirmationNumber := confirmationNumberFor payload.itineraryId tok
              status := .pending
              itineraryId := payload.itineraryId
              paymentIntentId := payload.paymentIntentId
              amadeusFlightOrderId := none
              amadeusHotelReservationId := none
              amadeusFlightOrder := none
              amadeusHotelBooking := none
              amadeusFlightOrderError :=
                some (AmadeusTravelPartyMismatchError.message
                  ⟨.flight, max 1 c, ts.length⟩)
              amadeusHotelBookingError := none } ∧
      (bookingAgentConfirm true env payload tok).2.hotelCalls = 0 ∧
      ProviderCall.bookHotel ∉ (bookingAgentConfirm true env payload tok).2.calls) := by
  constructor
  · intro env payload tok e ts foffer href hcat hnp hnsell hp hts htsne hfo hho hhid
    have hlen : (travelersLength payload.travelers == 0) = false := by
      rw [hts]
      simp only [travelersLength, beq_eq_false_iff_ne, ne_eq]
      intro h
      exact htsne (List.length_eq_zero.mp h)
    have hfos : payload.amadeusFlightOffer.isSome = true := by
      rw [hfo]
      rfl
    rcases hcat with hcat | hcat
    · have hleg := flightLeg_const_err_auth env payload e hp hcat hnsell hnp
      have hrun := driver_flight_disabled env payload tok _ _ hleg rfl hlen hfos
      refine ⟨?_, ?_, ?_⟩ <;> simp [hrun]
    · have hleg := flightLeg_const_err_server env payload e hp hcat hnsell hnp
      have hrun := driver_flight_disabled env payload tok _ _ hleg rfl hlen hfos
      refine ⟨?_, ?_, ?_⟩ <;> simp [hrun]
  · intro env payload tok pr offer c ts foffer href hpr hoffer hc hts hlt hfo hho hhid
    have hlen : (travelersLength payload.travelers == 0) = false := by
      rw [hts]
      simp only [travelersLength, beq_eq_false_iff_ne, ne_eq]
      omega
    have hfos : payload.amadeusFlightOffer.isSome = true := by
      rw [hfo]
      rfl
    have ha := attemptFlight_mismatch_helper env payload .default 1 AgentState.initial
      pr offer c ts hpr hoffer hc hts hlt
    have hleg : runFlightLeg env payload AgentState.initial =
        ({ flightOrderId := none, flightOrder := none,
           orderError := some (AmadeusTravelPartyMismatchError.message
             ⟨.flight, max 1 c, ts.length⟩),
           pending := true, availAfter := false },
         { priceCalls := 1, orderCalls := 0, hotelCalls := 0,
           calls := [.price .default], waits := [] }) := by
      simp only [runFlightLeg, ha]
      simp [handleFlightCatch, AgentState.initial]
    have hrun := driver_flight_disabled env payload tok _ _ hleg rfl hlen hfos
    refine ⟨?_, ?_, ?_⟩ <;> simp [hrun]

/-- Witness for C9: an auth failure (part one, instantiated at a 401-style
provider error) and a capacity mismatch (part two), each with a cached
hotel offer present. -/
theorem C9_flight_failure_disables_hotel_witness :
    ((bookingAgentConfirm true
        { priceResult := fun _ _ => .error (.api ⟨401, "/p", [], none, none⟩)
          orderResult := fun _ => .ok none
          hotelResult := fun _ => .ok (some ⟨some ⟨some "HB1", none⟩⟩) }
        payloadHappy "tok1").1 =
      .ok { confirmationNumber := confirmationNumberFor payloadHappy.itineraryId "tok1"
            status := .pending
            itineraryId := payloadHappy.itineraryId
            paymentIntentId := payloadHappy.paymentIntentId
            amadeusFlightOrderId := none
            amadeusHotelReservationId := none
            amadeusFlightOrder := none
            amadeusHotelBooking := none
            amadeusFlightOrderError :=
              some (extractAmadeusMessage (.api ⟨401, "/p", [], none, none⟩)
                "Amadeus flight booking failed")
            amadeusHotelBookingError := none } ∧
     (bookingAgentConfirm true
        { priceResult := fun _ _ => .error (.api ⟨401, "/p", [], none, none⟩)
          orderResult := fun _ => .ok none
          hotelResult := fun _ => .ok (some ⟨some ⟨some "HB1", none⟩⟩) }
        payloadHappy "tok1").2.hotelCalls = 0 ∧
     ProviderCall.bookHotel ∉
       (bookingAgentConfirm true
          { priceResult := fun _ _ => .error (.api ⟨401, "/p", [], none, none⟩)
            orderResult := fun _ => .ok none
            hotelResult := fun _ => .ok (some ⟨some ⟨some "HB1", none⟩⟩) }
          payloadHappy "tok1").2.calls) ∧
    ((bookingAgentConfirm true
        { priceResult := fun _ _ => .ok (some ⟨some ⟨some [.obj (some 1)]⟩⟩)
          orderResult := fun _ => .ok none
          hotelResult := fun _ => .ok (some ⟨some ⟨some "HB1", none⟩⟩) }
        payloadHappy "tok1").1 =
      .ok { confirmationNumber := confirmationNumberFor payloadHappy.itineraryId "tok1"
            status := .pending
            itineraryId := payloadHappy.itineraryId
            paymentIntentId := payloadHappy.paymentIntentId
            amadeusFlightOrderId := none
            amadeusHotelReservationId := none
            amadeusFlightOrder := none
            amadeusHotelBooking := none
            amadeusFlightOrderError :=
              some (AmadeusTravelPartyMismatchError.message ⟨.flight, max 1 1, 2⟩)
            amadeusHotelBookingError := none } ∧
     (bookingAgentConfirm true
        { priceResult := fun _ _ => .ok (some ⟨some ⟨some [.obj (some 1)]⟩⟩)
          orderResult := fun _ => .ok none
          hotelResult := fun _ => .ok (some ⟨some ⟨some "HB1", none⟩⟩) }
        payloadHappy "tok1").2.hotelCalls = 0 ∧
     ProviderCall.bookHotel ∉
       (bookingAgentConfirm true
          { priceResult := fun _ _ => .ok (some ⟨some ⟨some [.obj (some 1)]⟩⟩)
            orderResult := fun _ => .ok none
            hotelResult := fun _ => .ok (some ⟨some ⟨some "HB1", none⟩⟩) }
          payloadHappy "tok1").2.calls) :=
  ⟨C9_flight_failure_disables_hotel.1 _ payloadHappy "tok1"
      ⟨401, "/p", [], none, none⟩ [(), ()] (.obj (some 2)) ⟨"HO1", none, none⟩
      (Or.inl rfl) (by decide) (by decide) (fun _ _ => rfl)
      rfl (by decide) rfl rfl (by decide),
   C9_flight_failure_disables_hotel.2 _ payloadHappy "tok1"
      (some ⟨some ⟨some [.obj (some 1)]⟩⟩) (.obj (some 1)) 1 [(), ()]
      (.obj (some 2)) ⟨"HO1", none, none⟩
      rfl rfl rfl rfl (by decide) rfl rfl (by decide)⟩

/-- C10: when the priced flight offer carries no `travelerPricings` array
(or is not an object), `extractTravelerPricingCount` is `undefined`, the
capacity check treats the capacity as unknown and raises no
`TravelPartyMismatch` for any traveler list — order creation proceeds
regardless of party size; conversely a mismatch is raised by the
pre-order-creation check only when an explicit traveler-pricing count is
present and strictly smaller than the traveler count. -/
theorem C10_unknown_capacity_no_mismatch
    (offer : FlightOfferJson) (travelers : Option (List BookingTraveler)) :
    (extractTravelerPricingCount (some offer) = none →
      ensureFlightTravelerCapacity offer travelers = .ok ()) ∧
    (∀ m, ensureFlightTravelerCapacity offer travelers = .error m →
      ∃ c, extractTravelerPricingCount (some offer) = some c ∧
        c < travelersLength travelers ∧
        m = ⟨.flight, max 1 c, travelersLength travelers⟩) := by
  constructor
  · intro hnone
    simp [ensureFlightTravelerCapacity, hnone]
  · intro m hm
    unfold ensureFlightTravelerCapacity at hm
    by_cases h0 : (travelersLength travelers == 0) = true
    · rw [if_pos h0] at hm
      simp at hm
    · rw [if_neg h0] at hm
      cases hx : extractTravelerPricingCount (some offer) with
      | none =>
          rw [hx] at hm
          simp at hm
      | some c =>
          rw [hx] at hm
          dsimp only at hm
          by_cases hgt : travelersLength travelers > c
          · rw [if_pos hgt] at hm
            simp only [Except.error.injEq] at hm
            exact ⟨c, rfl, by omega, hm.symm⟩
          · rw [if_neg hgt] at hm
            simp at hm

/-- Witness for C10: offers with an absent `travelerPricings` array and a
non-object offer, each against a three-traveler party. -/
theorem C10_unknown_capacity_no_mismatch_witness :
    ensureFlightTravelerCapacity (.obj none) (some [(), (), ()]) = .ok () ∧
    ensureFlightTravelerCapacity .prim (some [(), (), ()]) = .ok () :=
  ⟨(C10_unknown_capacity_no_mismatch (.obj none) (some [(), (), ()])).1 rfl,
   (C10_unknown_capacity_no_mismatch .prim (some [(), (), ()])).1 rfl⟩

end TravelAI
